import Mathlib

/-!
Verification development for the Universal Live Builder (ULB) repository.

The repository contains two near-duplicate Rust pipelines:
  * `src/source-code/src/main.rs`      — embedded below in namespace `Root`;
  * `src/source-code/CLI/src/main.rs`  — embedded below in namespace `CLI`.

The embedding is a shallow one.  Every external `podman` invocation is
modelled by consuming one value of an environment `Env : Nat → Option Nat`
(`none` = the process could not be spawned, `some c` = the process ran and
exited with code `c`), and the run is observed through a trace of events
(podman invocations with their results, file renames, file copies) plus the
list of produced output artifacts.  Rust `Command::status()` whose exit code
the source drops is modelled by `podmanUnchecked`; `Command::output()` whose
`status.success()` the source checks is modelled by `podmanChecked`.  The
`?` operator on a fallible step is modelled by `andThen` (for steps that
advance the run state) and `withOk` (for pure intermediate `Result`s such as
the command-resolution matches).
-/

/-- Build profile, mirroring `struct Profile` (identical in both main.rs files). -/
structure Profile where
  packages : List String
  distro_name : String
  base : String
  version : String
  init_system : String
  packages_to_remove : List String
  bootloader : String
  uefi_support : Bool
  bios_support : Bool
  format : String
  atomic : Bool
  deriving Repr, DecidableEq

/-- Errors surfaced by the pipeline: `spawn ctx` is a failed process spawn
propagated through `.context(ctx)?`; `failure msg` is `anyhow::anyhow!(msg)`;
`panicked` is `unreachable!()` (present only in the CLI variant). -/
inductive BuildError where
  | spawn (ctx : String)
  | failure (msg : String)
  | panicked
  deriving Repr, DecidableEq

/-- Observable events of a pipeline run. A `podman` event records the full
argument vector passed to the `podman` binary together with the spawn/exit
result; `renamed` records an `fs::rename`; `copied` records an `fs::copy`. -/
inductive Event where
  | podman (args : List String) (result : Option Nat)
  | renamed (src dst : String)
  | copied (src dst : String)
  deriving Repr, DecidableEq

/-- Run state: `n` counts podman invocations so far (it indexes into the
environment), `trace` is the event history, `outputs` the set of produced
output artifacts (paths), as a list. -/
@[ext]
structure St where
  n : Nat
  trace : List Event
  outputs : List String
  deriving Repr, DecidableEq

/-- Environment: result of the k-th podman invocation of the run.
`none` means the process could not be spawned, `some c` an exit with code `c`. -/
abbrev Env := Nat → Option Nat

/-- Sequencing of one fallible pipeline step with its continuation, as
performed by Rust's `?` operator on a `Result` carrying the run state. -/
def andThen (step : St × Except BuildError Unit) (k : St → St × Except BuildError Unit) :
    St × Except BuildError Unit :=
  match step with
  | (s, .ok ()) => k s
  | (s, .error e) => (s, .error e)

/-- Sequencing of a pure intermediate result (a resolution match producing a
value or an error at state `s`) with its continuation. -/
def withOk {α : Type} (v : Except BuildError α) (s : St)
    (k : α → St × Except BuildError Unit) : St × Except BuildError Unit :=
  match v with
  | .error e => (s, .error e)
  | .ok x => k x

/-- A podman invocation via `.output()` (or `.status()` with `.success()`
inspected) whose non-zero exit is turned into an error with message `fmsg`. -/
def podmanChecked (env : Env) (ctx fmsg : String) (args : List String) (s : St) :
    St × Except BuildError Unit :=
  match env s.n with
  | none => ({ s with n := s.n + 1, trace := s.trace ++ [.podman args none] },
             .error (.spawn ctx))
  | some c =>
    let s1 : St := { s with n := s.n + 1, trace := s.trace ++ [.podman args (some c)] }
    if c = 0 then (s1, .ok ()) else (s1, .error (.failure fmsg))

/-- A podman invocation via `.status()` whose exit code the source drops
(or whose failure it merely logs): only a spawn failure propagates. -/
def podmanUnchecked (env : Env) (ctx : String) (args : List String) (s : St) :
    St × Except BuildError Unit :=
  match env s.n with
  | none => ({ s with n := s.n + 1, trace := s.trace ++ [.podman args none] },
             .error (.spawn ctx))
  | some c => ({ s with n := s.n + 1, trace := s.trace ++ [.podman args (some c)] }, .ok ())

/-- Checked assembly invocation that, on exit code 0, additionally records the
container writing the image through its bind mount at host path `wpath`. -/
def podmanWriteChecked (env : Env) (ctx fmsg wpath : String) (args : List String) (s : St) :
    St × Except BuildError Unit :=
  match env s.n with
  | none => ({ s with n := s.n + 1, trace := s.trace ++ [.podman args none] },
             .error (.spawn ctx))
  | some c =>
    if c = 0 then
      ({ s with n := s.n + 1, trace := s.trace ++ [.podman args (some c)],
                outputs := s.outputs ++ [wpath] }, .ok ())
    else
      ({ s with n := s.n + 1, trace := s.trace ++ [.podman args (some c)] },
       .error (.failure fmsg))

/-- Unchecked assembly invocation (root variant): the write through the bind
mount at `wpath` happens exactly when the command exits 0, but the exit code
is dropped, so the invocation reports success whenever the spawn succeeded. -/
def podmanWriteUnchecked (env : Env) (ctx wpath : String) (args : List String) (s : St) :
    St × Except BuildError Unit :=
  match env s.n with
  | none => ({ s with n := s.n + 1, trace := s.trace ++ [.podman args none] },
             .error (.spawn ctx))
  | some c =>
    ({ s with n := s.n + 1, trace := s.trace ++ [.podman args (some c)],
              outputs := if c = 0 then s.outputs ++ [wpath] else s.outputs }, .ok ())

/-- Model of `fs::rename(src, dst)` (always succeeding): the artifact moves
from `src` to `dst`. -/
def doRename (src dst : String) (s : St) : St :=
  { s with trace := s.trace ++ [.renamed src dst],
           outputs := s.outputs.filter (fun q => q != src) ++ [dst] }

/-- Rust `Path::join` for a relative right-hand side. -/
def pathJoin (a b : String) : String := a ++ "/" ++ b

/-- Helper for `Path::extension`: the suffix after the last `.` of the given
characters, if any. -/
def extAfterDot : List Char → Option (List Char)
  | [] => none
  | '.' :: rest => some ((extAfterDot rest).getD rest)
  | _ :: rest => extAfterDot rest

/-- Rust `Path::extension()` of a file name: the portion after the last dot,
where a single leading dot does not count as a separator. -/
def fileExtension (name : String) : Option String :=
  match name.data with
  | [] => none
  | _ :: rest => (extAfterDot rest).map (fun e => String.mk e)

/-- The filter used by both `run_scripts` variants:
`e.path().extension().map_or(false, |ext| ext == "sh")`. -/
def isShFile (name : String) : Bool := fileExtension name == some "sh"

/-- Byte-order comparison of two character lists (Unicode code point order,
which coincides with the byte order of their UTF-8 encodings, the order Rust
uses for `OsString` on Unix). -/
def charListLe : List Char → List Char → Bool
  | [], _ => true
  | _ :: _, [] => false
  | a :: as, b :: bs =>
    if a.toNat < b.toNat then true
    else if b.toNat < a.toNat then false
    else charListLe as bs

/-- File-name order used by `scripts.sort_by_key(|e| e.file_name())`. -/
def nameLe (a b : String) : Bool := charListLe a.data b.data

/-- The order `nameLe` as a relation. -/
def nameRel (a b : String) : Prop := nameLe a b = true

instance : DecidableRel nameRel := fun a b => instDecidableEqBool (nameLe a b) true

/-- Discovery and ordering of the scripts directory, common to both variants:
keep the `*.sh` entries and sort them by file name (Rust's stable
`sort_by_key` on directory entries; `List.insertionSort` is likewise stable). -/
def sortedShScripts (names : List String) : List String :=
  List.insertionSort nameRel (names.filter isShFile)

/-- Argument vector of one script invocation, common to both variants: note
the container image is the literal `"ubuntu:latest"` in both sources. -/
def scriptArgs (spath rootfs nm : String) : List String :=
  ["run", "--rm", "-v", rootfs ++ ":/rootfs:z", "-v",
   pathJoin spath nm ++ ":/script.sh:z,ro", "ubuntu:latest", "chroot", "/rootfs",
   "bash", "/script.sh"]

/-- One entry of the user `files/` overlay directory, with its path relative
to the overlay root, as produced by `WalkDir` + `strip_prefix`. -/
structure FsEntry where
  rel : String
  isDir : Bool
  deriving Repr, DecidableEq

/-- Model of `copy_files` (identical logic in both variants): a missing source
directory is skipped silently, otherwise the tree is copied onto the rootfs.
Local copies involve no build-environment invocation and are modelled as
always succeeding. -/
def copy_files (dir : Option (List FsEntry)) (srcPath destPath : String) (s : St) :
    St × Except BuildError Unit :=
  match dir with
  | none => (s, .ok ())
  | some entries =>
    ({ s with trace := s.trace ++ entries.filterMap (fun en =>
        if en.isDir then none
        else some (.copied (pathJoin srcPath en.rel) (pathJoin destPath en.rel))) },
     .ok ())

/-- Sequencing combinator matching a chain of `stage(...)?;` statements:
run the stage functions in order, stopping at the first error. -/
def runSeq : List (St → St × Except BuildError Unit) → St → St × Except BuildError Unit
  | [], s => (s, .ok ())
  | f :: fs, s => andThen (f s) (fun s1 => runSeq fs s1)

namespace Root

/-- setup_podman_container, src/main.rs lines 186-242.  The version check is
inspected; the pull and the tool installation use `.status()?` and their exit
codes are dropped.  An unrecognized base silently maps to `ubuntu:latest`. -/
def setup_podman_container (env : Env) (p : Profile) (s : St) : St × Except BuildError Unit :=
  andThen (podmanChecked env "Failed to check podman version"
      "Podman not found. Please install Podman." ["--version"] s) fun s =>
  let base_image :=
    match p.base with
    | "ubuntu" | "debian" => "ubuntu:latest"
    | "fedora" => "fedora:latest"
    | _ => "ubuntu:latest"
  andThen (podmanUnchecked env "Failed to pull base image" ["pull", base_image] s) fun s =>
  let tools :=
    if p.atomic then "ostree rpm-ostree xorriso"
    else "debootstrap live-build xorriso lorax"
  let pkg_manager := if p.base = "fedora" then "dnf" else "apt"
  let install_cmd :=
    if pkg_manager = "apt" then "apt update && apt install -y " ++ tools
    else "dnf install -y " ++ tools
  podmanUnchecked env "Failed to install tools in container"
    ["run", "--rm", "-v", "/tmp/.ulb/build-files:/build:z", base_image,
     "bash", "-c", install_cmd] s

/-- install_base_system, src/main.rs lines 244-276.  `fedora` with
`atomic = false` falls into the wildcard arm and is rejected; the atomic
`rpm-ostree` arm only prints a placeholder and runs nothing. -/
def install_base_system (env : Env) (p : Profile) (rootfs : String) (s : St) :
    St × Except BuildError Unit :=
  let baseCmd : Except BuildError String :=
    match p.base with
    | "debian" | "ubuntu" => .ok "debootstrap"
    | "fedora" =>
      if p.atomic then .ok "rpm-ostree"
      else .error (.failure ("Unsupported base: " ++ p.base))
    | _ => .error (.failure ("Unsupported base: " ++ p.base))
  withOk baseCmd s fun base_cmd =>
  if base_cmd = "debootstrap" then
    podmanUnchecked env "Failed to run debootstrap"
      ["run", "--rm", "-v", rootfs ++ ":/rootfs:z", "ubuntu:latest", "debootstrap",
       "--arch=amd64", "stable", "/rootfs", "http://deb.debian.org/debian/"] s
  else (s, .ok ())

/-- install_packages, src/main.rs lines 278-303.  Empty package list: no
invocation.  The container image is the literal `ubuntu:latest` and the exit
code of the install command is dropped. -/
def install_packages (env : Env) (p : Profile) (rootfs : String) (s : St) :
    St × Except BuildError Unit :=
  if !p.packages.isEmpty then
    let pkg_manager := if p.base = "fedora" then "dnf" else "apt"
    let install_cmd := pkg_manager ++ " install -y " ++ String.intercalate " " p.packages
    podmanUnchecked env "Failed to install packages"
      ["run", "--rm", "-v", rootfs ++ ":/rootfs:z", "ubuntu:latest", "chroot",
       "/rootfs", "bash", "-c", install_cmd] s
  else (s, .ok ())

/-- remove_packages, src/main.rs lines 305-328. -/
def remove_packages (env : Env) (p : Profile) (rootfs : String) (s : St) :
    St × Except BuildError Unit :=
  if !p.packages_to_remove.isEmpty then
    let pkg_manager := if p.base = "fedora" then "dnf" else "apt"
    let remove_cmd :=
      pkg_manager ++ " remove -y " ++ String.intercalate " " p.packages_to_remove
    podmanUnchecked env "Failed to remove packages"
      ["run", "--rm", "-v", rootfs ++ ":/rootfs:z", "ubuntu:latest", "chroot",
       "/rootfs", "bash", "-c", remove_cmd] s
  else (s, .ok ())

/-- Loop body of run_scripts, src/main.rs lines 359-377: each script runs via
`.status()?`, so a non-zero exit does not stop the loop — only a spawn
failure does. -/
def run_scripts_go (env : Env) (spath rootfs : String) :
    List String → St → St × Except BuildError Unit
  | [], s => (s, .ok ())
  | nm :: rest, s =>
    andThen (podmanUnchecked env ("Failed to run script: " ++ pathJoin spath nm)
      (scriptArgs spath rootfs nm) s) fun s =>
    run_scripts_go env spath rootfs rest s

/-- run_scripts, src/main.rs lines 347-380: missing directory is skipped;
otherwise the `*.sh` entries are sorted by file name and run in order. -/
def run_scripts (env : Env) (dir : Option (List String)) (spath rootfs : String) (s : St) :
    St × Except BuildError Unit :=
  match dir with
  | none => (s, .ok ())
  | some names => run_scripts_go env spath rootfs (sortedShScripts names) s

/-- configure_system, src/main.rs lines 382-442.  `openrc` prints a
placeholder and runs nothing; an unknown init system is merely logged via
`error!`; the firmware check sits after the bootloader installation. -/
def configure_system (env : Env) (p : Profile) (rootfs : String) (s : St) :
    St × Except BuildError Unit :=
  andThen
    (match p.init_system with
     | "systemd" =>
       podmanUnchecked env "Failed to configure systemd"
         ["run", "--rm", "-v", rootfs ++ ":/rootfs:z", "ubuntu:latest", "chroot",
          "/rootfs", "systemctl", "enable", "systemd-sysv-install"] s
     | "openrc" => (s, .ok ())
     | _ => (s, .ok ())) fun s =>
  let bootloaderCmd : Except BuildError String :=
    match p.bootloader with
    | "grub" =>
      .ok "grub-install --target=x86_64-efi --efi-directory=/boot/efi --bootloader-id=GRUB"
    | "systemd-boot" => .ok "bootctl --path=/boot install"
    | _ => .error (.failure ("Unsupported bootloader: " ++ p.bootloader))
  withOk bootloaderCmd s fun bootloader_cmd =>
  andThen (podmanUnchecked env "Failed to install bootloader"
    ["run", "--rm", "-v", rootfs ++ ":/rootfs:z", "ubuntu:latest", "chroot",
     "/rootfs", "bash", "-c", bootloader_cmd] s) fun s =>
  if !p.uefi_support && !p.bios_support then
    (s, .error (.failure "Must support at least UEFI or BIOS"))
  else (s, .ok ())

/-- build_iso, src/main.rs lines 444-475: the durable ISO path is bind-mounted
directly into the container (no temporary path, no rename) and the exit code
of the assembly command is dropped. -/
def build_iso (env : Env) (p : Profile) (rootfs bdir : String) (s : St) :
    St × Except BuildError Unit :=
  let iso_path := pathJoin bdir (p.distro_name ++ "-" ++ p.version ++ ".iso")
  let build_cmd :=
    if p.atomic then
      "rpm-ostree compose tree --repo=/rootfs/ostree-repo /rootfs/tree.yaml && xorriso -as mkisofs -o /output.iso /rootfs"
    else
      "mksquashfs /rootfs /filesystem.squashfs && xorriso -as mkisofs -o /output.iso -b isolinux/isolinux.bin -c isolinux/boot.cat -no-emul-boot -boot-load-size 4 -boot-info-table -eltorito-alt-boot -e boot/efi.img -no-emul-boot /rootfs"
  podmanWriteUnchecked env "Failed to build ISO" iso_path
    ["run", "--rm", "-v", rootfs ++ ":/rootfs:z", "-v", iso_path ++ ":/output.iso:z",
     "ubuntu:latest", "bash", "-c", build_cmd] s

/-- build_distro, src/main.rs lines 106-155, from the point where the parsed
profile is in hand: the eight stages run in order, each aborting the chain
with `?` on error. -/
def build_distro (env : Env) (p : Profile) (filesDir : Option (List FsEntry))
    (scriptsDir : Option (List String)) (fpath spath bdir : String) (s : St) :
    St × Except BuildError Unit :=
  andThen (setup_podman_container env p s) fun s =>
  andThen (install_base_system env p "/tmp/.ulb/rootfs" s) fun s =>
  andThen (install_packages env p "/tmp/.ulb/rootfs" s) fun s =>
  andThen (remove_packages env p "/tmp/.ulb/rootfs" s) fun s =>
  andThen (copy_files filesDir fpath "/tmp/.ulb/rootfs" s) fun s =>
  andThen (run_scripts env scriptsDir spath "/tmp/.ulb/rootfs" s) fun s =>
  andThen (configure_system env p "/tmp/.ulb/rootfs" s) fun s =>
  build_iso env p "/tmp/.ulb/rootfs" bdir s

/-- The eight stages of the root pipeline, in the order build_distro runs
them. -/
def stage_list (env : Env) (p : Profile) (filesDir : Option (List FsEntry))
    (scriptsDir : Option (List String)) (fpath spath bdir : String) :
    List (St → St × Except BuildError Unit) :=
  [setup_podman_container env p,
   install_base_system env p "/tmp/.ulb/rootfs",
   install_packages env p "/tmp/.ulb/rootfs",
   remove_packages env p "/tmp/.ulb/rootfs",
   copy_files filesDir fpath "/tmp/.ulb/rootfs",
   run_scripts env scriptsDir spath "/tmp/.ulb/rootfs",
   configure_system env p "/tmp/.ulb/rootfs",
   build_iso env p "/tmp/.ulb/rootfs" bdir]

/-- The validation block of interactive_build, src/main.rs lines 538-541: it
only prints a warning (when base is fedora and atomic is false); the profile
is used unchanged.  Returns the profile together with the warning flag. -/
def interactive_profile_check (p : Profile) : Profile × Bool :=
  (p, p.base == "fedora" && !p.atomic)

end Root

namespace CLI

/-- The repeated base-image match of the CLI variant with its
`_ => unreachable!()` arm (install_base_system, install_packages,
remove_packages, configure_system, build_iso). -/
def base_image_of (base : String) : Except BuildError String :=
  match base with
  | "ubuntu" | "debian" => .ok "ubuntu:latest"
  | "fedora" => .ok "fedora:latest"
  | _ => .error .panicked

/-- setup_podman_container, CLI/src/main.rs lines 222-286: version check,
pull and tool installation all inspect the exit status; an unknown base is
rejected here with an explicit error. -/
def setup_podman_container (env : Env) (p : Profile) (s : St) : St × Except BuildError Unit :=
  andThen (podmanChecked env "Failed to check podman version"
      "Podman not found. Please install Podman." ["--version"] s) fun s =>
  let imageStep : Except BuildError String :=
    match p.base with
    | "ubuntu" | "debian" => .ok "ubuntu:latest"
    | "fedora" => .ok "fedora:latest"
    | _ => .error (.failure ("Unsupported base: " ++ p.base ++
             ". Supported: ubuntu, debian, fedora"))
  withOk imageStep s fun base_image =>
  andThen (podmanChecked env "Failed to pull base image" "Failed to pull image"
      ["pull", base_image] s) fun s =>
  let tools :=
    if p.atomic then "ostree rpm-ostree xorriso mksquashfs"
    else "debootstrap live-build xorriso lorax mksquashfs"
  let pkg_manager := if p.base = "fedora" then "dnf" else "apt"
  let install_cmd :=
    if pkg_manager = "apt" then "apt update && apt install -y " ++ tools
    else "dnf install -y " ++ tools
  podmanChecked env "Failed to install tools in container" "Failed to install tools"
    ["run", "--rm", "-v", "/tmp/.ulb/build-files:/build:z", base_image,
     "bash", "-c", install_cmd] s

/-- install_base_system, CLI/src/main.rs lines 288-338: debootstrap for
debian/ubuntu, rpm-ostree for atomic fedora, a plain dnf install for classic
fedora; the invocation is privileged and its exit status is inspected.
The `_ => Err(...)` arm of the base_cmd match is dead because the image match
panics first for an unknown base. -/
def install_base_system (env : Env) (p : Profile) (rootfs : String) (s : St) :
    St × Except BuildError Unit :=
  withOk (base_image_of p.base) s fun base_image =>
  let cmdStep : Except BuildError String :=
    match p.base with
    | "debian" | "ubuntu" => .ok "debootstrap"
    | "fedora" => if p.atomic then .ok "rpm-ostree" else .ok "dnf"
    | _ => .error (.failure ("Unsupported base: " ++ p.base))
  withOk cmdStep s fun base_cmd =>
  let install_cmd :=
    if base_cmd = "debootstrap" then
      "debootstrap --arch=amd64 stable /rootfs http://deb.debian.org/debian/"
    else if base_cmd = "rpm-ostree" then
      "rpm-ostree install --repo=/rootfs/ostree-repo base-packages"
    else
      "dnf install -y --installroot=/rootfs --releasever=latest @core"
  podmanChecked env "Failed to run base install" "Base system installation failed"
    ["run", "--rm", "--privileged", "-v", rootfs ++ ":/rootfs:z", base_image,
     "bash", "-c", install_cmd] s

/-- install_packages, CLI/src/main.rs lines 340-375: skipped when the package
list is empty; otherwise a chrooted package-manager install whose exit status
is inspected. -/
def install_packages (env : Env) (p : Profile) (rootfs : String) (s : St) :
    St × Except BuildError Unit :=
  if !p.packages.isEmpty then
    withOk (base_image_of p.base) s fun base_image =>
    let pkg_manager := if p.base = "fedora" then "dnf" else "apt"
    let install_cmd := pkg_manager ++ " install -y " ++ String.intercalate " " p.packages
    podmanChecked env "Failed to install packages" "Package installation failed"
      ["run", "--rm", "-v", rootfs ++ ":/rootfs:z", base_image, "chroot",
       "/rootfs", "bash", "-c", install_cmd] s
  else (s, .ok ())

/-- remove_packages, CLI/src/main.rs lines 377-411. -/
def remove_packages (env : Env) (p : Profile) (rootfs : String) (s : St) :
    St × Except BuildError Unit :=
  if !p.packages_to_remove.isEmpty then
    withOk (base_image_of p.base) s fun base_image =>
    let pkg_manager := if p.base = "fedora" then "dnf" else "apt"
    let remove_cmd :=
      pkg_manager ++ " remove -y " ++ String.intercalate " " p.packages_to_remove
    podmanChecked env "Failed to remove packages" "Package removal failed"
      ["run", "--rm", "-v", rootfs ++ ":/rootfs:z", base_image, "chroot",
       "/rootfs", "bash", "-c", remove_cmd] s
  else (s, .ok ())

/-- Loop body of run_scripts, CLI/src/main.rs lines 444-466: each script's
exit status is inspected and the first failure aborts the loop. -/
def run_scripts_go (env : Env) (spath rootfs : String) :
    List String → St → St × Except BuildError Unit
  | [], s => (s, .ok ())
  | nm :: rest, s =>
    andThen (podmanChecked env ("Failed to run script: " ++ pathJoin spath nm)
      "Script execution failed" (scriptArgs spath rootfs nm) s) fun s =>
    run_scripts_go env spath rootfs rest s

/-- run_scripts, CLI/src/main.rs lines 430-469: missing directory skipped;
`*.sh` entries sorted by file name; container image is the hard-coded
`ubuntu:latest` (the function never sees the profile). -/
def run_scripts (env : Env) (dir : Option (List String)) (spath rootfs : String) (s : St) :
    St × Except BuildError Unit :=
  match dir with
  | none => (s, .ok ())
  | some names => run_scripts_go env spath rootfs (sortedShScripts names) s

/-- configure_system, CLI/src/main.rs lines 471-566: init enablement
(non-zero exit only logged), bootloader install (checked, privileged),
firmware check after it, then initramfs generation (non-zero exit only
logged).  `openrc` resolves to the placeholder command `rc-update add ...`. -/
def configure_system (env : Env) (p : Profile) (rootfs : String) (s : St) :
    St × Except BuildError Unit :=
  withOk (base_image_of p.base) s fun base_image =>
  let initStep : Except BuildError String :=
    match p.init_system with
    | "systemd" => .ok "systemctl enable systemd-sysv-install"
    | "openrc" => .ok "rc-update add ..."
    | _ => .error (.failure ("Unsupported init system: " ++ p.init_system))
  withOk initStep s fun init_cmd =>
  andThen (podmanUnchecked env "Failed to configure init"
    ["run", "--rm", "-v", rootfs ++ ":/rootfs:z", base_image, "chroot",
     "/rootfs", "bash", "-c", init_cmd] s) fun s =>
  let blStep : Except BuildError String :=
    match p.bootloader with
    | "grub" =>
      .ok "grub-install --target=x86_64-efi --efi-directory=/boot/efi --bootloader-id=GRUB"
    | "systemd-boot" => .ok "bootctl --path=/boot install"
    | _ => .error (.failure ("Unsupported bootloader: " ++ p.bootloader))
  withOk blStep s fun bootloader_cmd =>
  andThen (podmanChecked env "Failed to install bootloader"
    "Bootloader configuration failed"
    ["run", "--rm", "--privileged", "-v", rootfs ++ ":/rootfs:z", base_image,
     "chroot", "/rootfs", "bash", "-c", bootloader_cmd] s) fun s =>
  if !p.uefi_support && !p.bios_support then
    (s, .error (.failure "Must support at least UEFI or BIOS"))
  else
    let mkinit_cmd :=
      if p.base = "fedora" then "dracut -f /boot/initramfs.img"
      else "update-initramfs -u"
    podmanUnchecked env "Failed to generate initramfs"
      ["run", "--rm", "-v", rootfs ++ ":/rootfs:z", base_image, "chroot",
       "/rootfs", "bash", "-c", mkinit_cmd] s

/-- build_iso, CLI/src/main.rs lines 568-613: the assembly writes to the
temporary path /tmp/.ulb/output.iso inside the build environment; only after
a successful, status-checked invocation is the image renamed to the durable
path `<bdir>/<distro_name>-<version>.iso`. -/
def build_iso (env : Env) (p : Profile) (rootfs bdir : String) (s : St) :
    St × Except BuildError Unit :=
  let iso_path := pathJoin bdir (p.distro_name ++ "-" ++ p.version ++ ".iso")
  let tmp_output := "/tmp/.ulb/output.iso"
  withOk (base_image_of p.base) s fun base_image =>
  let build_cmd :=
    if p.atomic then
      "rpm-ostree compose tree --repo=/rootfs/ostree-repo /rootfs/tree.yaml && mksquashfs /rootfs /filesystem.squashfs -comp xz && xorriso -as mkisofs -o /output.iso -V \x27MyDistro\x27 -e /filesystem.squashfs -no-emul-boot /rootfs"
    else
      "mksquashfs /rootfs /filesystem.squashfs -comp xz && xorriso -as mkisofs -o /output.iso -b isolinux/isolinux.bin -c isolinux/boot.cat -no-emul-boot -boot-load-size 4 -boot-info-table -eltorito-alt-boot -e boot/efi.img -no-emul-boot -V \x27MyDistro\x27 /rootfs"
  andThen (podmanWriteChecked env "Failed to build ISO" "ISO build failed" tmp_output
    ["run", "--rm", "--privileged", "-v", rootfs ++ ":/rootfs:z", "-v",
     tmp_output ++ ":/output.iso:z", base_image, "bash", "-c", build_cmd] s) fun s =>
  (doRename tmp_output iso_path s, .ok ())

/-- build_distro, CLI/src/main.rs lines 142-191, from the point where the
parsed profile is in hand: the eight stages run in order, each aborting the
chain with `?` on error. -/
def build_distro (env : Env) (p : Profile) (filesDir : Option (List FsEntry))
    (scriptsDir : Option (List String)) (fpath spath bdir : String) (s : St) :
    St × Except BuildError Unit :=
  andThen (setup_podman_container env p s) fun s =>
  andThen (install_base_system env p "/tmp/.ulb/rootfs" s) fun s =>
  andThen (install_packages env p "/tmp/.ulb/rootfs" s) fun s =>
  andThen (remove_packages env p "/tmp/.ulb/rootfs" s) fun s =>
  andThen (copy_files filesDir fpath "/tmp/.ulb/rootfs" s) fun s =>
  andThen (run_scripts env scriptsDir spath "/tmp/.ulb/rootfs" s) fun s =>
  andThen (configure_system env p "/tmp/.ulb/rootfs" s) fun s =>
  build_iso env p "/tmp/.ulb/rootfs" bdir s

/-- The eight stages of the CLI pipeline, in the order build_distro runs
them. -/
def stage_list (env : Env) (p : Profile) (filesDir : Option (List FsEntry))
    (scriptsDir : Option (List String)) (fpath spath bdir : String) :
    List (St → St × Except BuildError Unit) :=
  [setup_podman_container env p,
   install_base_system env p "/tmp/.ulb/rootfs",
   install_packages env p "/tmp/.ulb/rootfs",
   remove_packages env p "/tmp/.ulb/rootfs",
   copy_files filesDir fpath "/tmp/.ulb/rootfs",
   run_scripts env scriptsDir spath "/tmp/.ulb/rootfs",
   configure_system env p "/tmp/.ulb/rootfs",
   build_iso env p "/tmp/.ulb/rootfs" bdir]

/-- The validation block of interactive_build, CLI/src/main.rs lines 681-687:
an unknown base is rejected; `atomic = true` on a non-fedora base is
downgraded to `atomic = false` with a printed warning.  Returns the profile
actually used and whether the warning was printed. -/
def interactive_profile_check (p : Profile) : Except BuildError (Profile × Bool) :=
  if p.base ≠ "ubuntu" ∧ p.base ≠ "debian" ∧ p.base ≠ "fedora" then
    .error (.failure ("Invalid base: " ++ p.base))
  else if p.atomic = true ∧ p.base ≠ "fedora" then
    .ok ({ p with atomic := false }, true)
  else .ok (p, false)

end CLI

/-- Environment in which every invoked command spawns and exits 0. -/
def env0 : Env := fun _ => some 0

/-- Environment in which every invoked command spawns and exits 1. -/
def env1 : Env := fun _ => some 1

/-- Environment in which the first command exits 0 and every later one
exits 1. -/
def envTailFail : Env := fun n => if n = 0 then some 0 else some 1

/-- Environment in which the first command exits 1 and every later one
exits 0. -/
def envHeadFail : Env := fun n => if n = 0 then some 1 else some 0

/-- Initial state of a fresh run. -/
def st0 : St := ⟨0, [], []⟩

/-- The example profile written by `ulb init` (CLI/src/main.rs lines
117-129). -/
def pUbuntu : Profile :=
  ⟨["vim", "git"], "MyDistro", "ubuntu", "1.0", "systemd", [], "grub",
   true, true, "iso", false⟩

/-- The example profile with both firmware modes disabled and no package
work. -/
def pNoFirmware : Profile :=
  { pUbuntu with packages := [], uefi_support := false, bios_support := false }

/-- The example profile with `init_system = "openrc"`. -/
def pOpenrc : Profile := { pUbuntu with init_system := "openrc" }

/-- The example profile with `atomic = true` (on the ubuntu base) and no
package work. -/
def pUbuntuAtomic : Profile := { pUbuntu with atomic := true, packages := [] }

/-- The example profile with an unknown bootloader and no package work. -/
def pBadBootloader : Profile := { pUbuntu with bootloader := "lilo", packages := [] }

/-- Number of podman invocations recorded in a trace. -/
def numPodman (tr : List Event) : Nat :=
  (tr.filter (fun ev => match ev with | .podman _ _ => true | _ => false)).length

/-- Expected events of a run of consecutive scripts that all exit 0. -/
def scriptEventsOk (spath rootfs : String) : List String → List Event
  | [] => []
  | nm :: rest => .podman (scriptArgs spath rootfs nm) (some 0) :: scriptEventsOk spath rootfs rest

/-- Expected events of a run of consecutive scripts whose results come from
the environment starting at invocation index `i`. -/
def scriptEventsEnv (env : Env) (spath rootfs : String) : Nat → List String → List Event
  | _, [] => []
  | i, nm :: rest =>
    .podman (scriptArgs spath rootfs nm) (env i) :: scriptEventsEnv env spath rootfs (i + 1) rest

theorem charListLe_total (as bs : List Char) :
    charListLe as bs = true ∨ charListLe bs as = true := by
  induction as generalizing bs with
  | nil => left; rfl
  | cons a as ih =>
    cases bs with
    | nil => right; rfl
    | cons b bs =>
      rcases Nat.lt_trichotomy a.toNat b.toNat with h | h | h
      · left; simp [charListLe, h]
      · rcases ih bs with h2 | h2
        · left; simp [charListLe, h, h2]
        · right; simp [charListLe, h.symm, h2]
      · right; simp [charListLe, h]

theorem charListLe_trans (as bs cs : List Char) (h1 : charListLe as bs = true)
    (h2 : charListLe bs cs = true) : charListLe as cs = true := by
  induction as generalizing bs cs with
  | nil => rfl
  | cons a as ih =>
    cases bs with
    | nil => simp [charListLe] at h1
    | cons b bs =>
      cases cs with
      | nil => simp [charListLe] at h2
      | cons c cs =>
        simp only [charListLe] at h1 h2 ⊢
        split at h1
        · rename_i hab
          split
          · rfl
          · rename_i hac
            split
            · rename_i hca
              exfalso
              split at h2
              · rename_i hbc; omega
              · rename_i hbc
                split at h2
                · exact absurd h2 (by simp)
                · rename_i hcb; omega
            · rename_i hca
              exfalso
              split at h2
              · rename_i hbc; omega
              · rename_i hbc
                split at h2
                · exact absurd h2 (by simp)
                · rename_i hcb; omega
        · rename_i hab
          split at h1
          · exact absurd h1 (by simp)
          · rename_i hba
            split at h2
            · rename_i hbc
              split
              · rfl
              · rename_i hac
                split
                · omega
                · exfalso; omega
            · rename_i hbc
              split at h2
              · exact absurd h2 (by simp)
              · rename_i hcb
                split
                · omega
                · split
                  · omega
                  · exact ih bs cs h1 h2

instance : IsTotal String nameRel := ⟨fun a b => charListLe_total a.data b.data⟩

instance : IsTrans String nameRel := ⟨fun a b c => charListLe_trans a.data b.data c.data⟩

theorem sortedShScripts_sorted (names : List String) :
    List.Sorted nameRel (sortedShScripts names) :=
  List.sorted_insertionSort nameRel (names.filter isShFile)

theorem sortedShScripts_perm (names : List String) :
    List.Perm (sortedShScripts names) (names.filter isShFile) :=
  List.perm_insertionSort nameRel (names.filter isShFile)

theorem andThen_cases (step : St × Except BuildError Unit)
    (k : St → St × Except BuildError Unit) (P : St × Except BuildError Unit → Prop)
    (h1 : ∀ s1 e, step = (s1, .error e) → P (s1, .error e))
    (h2 : ∀ s1, step = (s1, .ok ()) → P (k s1)) : P (andThen step k) := by
  rcases step with ⟨s1, r⟩
  cases r with
  | error e => exact h1 s1 e rfl
  | ok u => cases u; exact h2 s1 rfl

theorem withOk_cases {α : Type} (v : Except BuildError α) (s : St)
    (k : α → St × Except BuildError Unit) (P : St × Except BuildError Unit → Prop)
    (h1 : ∀ e, v = .error e → P (s, .error e))
    (h2 : ∀ x, v = .ok x → P (k x)) : P (withOk v s k) := by
  cases v with
  | error e => exact h1 e rfl
  | ok x => exact h2 x rfl

theorem andThen_outputs (step : St × Except BuildError Unit)
    (k : St → St × Except BuildError Unit)
    (hk : ∀ s1, ((k s1).1).outputs = s1.outputs) :
    ((andThen step k).1).outputs = (step.1).outputs := by
  rcases step with ⟨s1, r⟩
  cases r with
  | error e => rfl
  | ok u => cases u; exact hk s1

theorem withOk_outputs {α : Type} (v : Except BuildError α) (s : St)
    (k : α → St × Except BuildError Unit)
    (hk : ∀ x, ((k x).1).outputs = s.outputs) :
    ((withOk v s k).1).outputs = s.outputs := by
  cases v with
  | error e => rfl
  | ok x => exact hk x

theorem podmanChecked_outputs (env : Env) (ctx fmsg : String) (args : List String) (s : St) :
    ((podmanChecked env ctx fmsg args s).1).outputs = s.outputs := by
  unfold podmanChecked
  cases env s.n with
  | none => rfl
  | some c =>
    by_cases h : c = 0 <;> simp [h]

theorem podmanUnchecked_outputs (env : Env) (ctx : String) (args : List String) (s : St) :
    ((podmanUnchecked env ctx args s).1).outputs = s.outputs := by
  unfold podmanUnchecked
  cases env s.n with
  | none => rfl
  | some c => rfl

theorem podmanWriteChecked_outputs_error (env : Env) (ctx fmsg wpath : String)
    (args : List String) (s s1 : St) (e : BuildError)
    (h : podmanWriteChecked env ctx fmsg wpath args s = (s1, .error e)) :
    s1.outputs = s.outputs := by
  unfold podmanWriteChecked at h
  cases henv : env s.n with
  | none =>
    rw [henv] at h
    injection h with h1 h2
    rw [← h1]
  | some c =>
    rw [henv] at h
    by_cases hc : c = 0
    · simp [hc] at h
    · simp [hc] at h
      rw [← h.1]

theorem podmanWriteUnchecked_outputs_error (env : Env) (ctx wpath : String)
    (args : List String) (s s1 : St) (e : BuildError)
    (h : podmanWriteUnchecked env ctx wpath args s = (s1, .error e)) :
    s1.outputs = s.outputs := by
  unfold podmanWriteUnchecked at h
  cases henv : env s.n with
  | none =>
    rw [henv] at h
    injection h with h1 h2
    rw [← h1]
  | some c =>
    rw [henv] at h
    simp at h

theorem runSeq_error_split (l : List (St → St × Except BuildError Unit)) (s s1 : St)
    (e : BuildError) (h : runSeq l s = (s1, .error e)) :
    ∃ k, k < l.length ∧
      (runSeq (l.take k) s).2 = .ok () ∧
      runSeq (l.take (k + 1)) s = (s1, .error e) := by
  induction l generalizing s with
  | nil => simp [runSeq] at h
  | cons f fs ih =>
    rcases hf : f s with ⟨s2, r⟩
    cases r with
    | error e2 =>
      have heq : runSeq (f :: fs) s = (s2, .error e2) := by
        simp [runSeq, andThen, hf]
      rw [heq] at h
      injection h with ha hb
      refine ⟨0, by simp, by simp [runSeq], ?_⟩
      simp [runSeq, andThen, hf, ha, hb]
    | ok u =>
      cases u
      have heq : runSeq (f :: fs) s = runSeq fs s2 := by
        simp [runSeq, andThen, hf]
      rw [heq] at h
      obtain ⟨k, hk, hok, herr⟩ := ih s2 h
      refine ⟨k + 1, by simpa using Nat.succ_lt_succ hk, ?_, ?_⟩
      · show (runSeq ((f :: fs).take (k + 1)) s).2 = .ok ()
        rw [List.take_succ_cons]
        simp [runSeq, andThen, hf, hok]
      · show runSeq ((f :: fs).take (k + 1 + 1)) s = (s1, .error e)
        rw [List.take_succ_cons]
        simp [runSeq, andThen, hf, herr]

theorem runSeq_outputs_error (l : List (St → St × Except BuildError Unit))
    (hfront : ∀ f ∈ l.dropLast, ∀ s, ((f s).1).outputs = s.outputs)
    (hall : ∀ f ∈ l, ∀ s s1 e, f s = (s1, .error e) → s1.outputs = s.outputs)
    (s s1 : St) (e : BuildError) (h : runSeq l s = (s1, .error e)) :
    s1.outputs = s.outputs := by
  induction l generalizing s with
  | nil => simp [runSeq] at h
  | cons f fs ih =>
    rcases hf : f s with ⟨s2, r⟩
    cases r with
    | error e2 =>
      have heq : runSeq (f :: fs) s = (s2, .error e2) := by
        simp [runSeq, andThen, hf]
      rw [heq] at h
      injection h with ha hb
      rw [← ha]
      exact hall f (by simp) s s2 e2 hf
    | ok u =>
      cases u
      have heq : runSeq (f :: fs) s = runSeq fs s2 := by
        simp [runSeq, andThen, hf]
      rw [heq] at h
      cases fs with
      | nil => simp [runSeq] at h
      | cons g gs =>
        have hf_out : s2.outputs = s.outputs := by
          have hmem : f ∈ (f :: g :: gs).dropLast := by
            rw [List.dropLast_cons₂]
            exact List.mem_cons_self f _
          have := hfront f hmem s
          rw [hf] at this
          exact this
        have ihres := ih
          (fun q hq s' => hfront q (by
            rw [List.dropLast_cons₂]
            exact List.mem_cons_of_mem f hq) s')
          (fun q hq s' s1' e' => hall q (List.mem_cons_of_mem f hq) s' s1' e')
          s2 h
        exact ihres.trans hf_out

theorem copy_files_outputs (dir : Option (List FsEntry)) (srcPath destPath : String) (s : St) :
    ((copy_files dir srcPath destPath s).1).outputs = s.outputs := by
  cases dir <;> rfl

namespace Root

theorem r_setup_podman_container_outputs (env : Env) (p : Profile) (s : St) :
    ((setup_podman_container env p s).1).outputs = s.outputs := by
  unfold setup_podman_container
  refine (andThen_outputs _ _ ?_).trans (podmanChecked_outputs _ _ _ _ _)
  intro s1
  refine (andThen_outputs _ _ ?_).trans (podmanUnchecked_outputs _ _ _ _)
  intro s2
  exact podmanUnchecked_outputs _ _ _ _

theorem r_install_base_system_outputs (env : Env) (p : Profile) (rootfs : String) (s : St) :
    ((install_base_system env p rootfs s).1).outputs = s.outputs := by
  unfold install_base_system
  refine withOk_outputs _ _ _ ?_
  intro bc
  split
  · exact podmanUnchecked_outputs _ _ _ _
  · rfl

theorem r_install_packages_outputs (env : Env) (p : Profile) (rootfs : String) (s : St) :
    ((install_packages env p rootfs s).1).outputs = s.outputs := by
  unfold install_packages
  split
  · exact podmanUnchecked_outputs _ _ _ _
  · rfl

theorem r_remove_packages_outputs (env : Env) (p : Profile) (rootfs : String) (s : St) :
    ((remove_packages env p rootfs s).1).outputs = s.outputs := by
  unfold remove_packages
  split
  · exact podmanUnchecked_outputs _ _ _ _
  · rfl

theorem r_run_scripts_go_outputs (env : Env) (spath rootfs : String) (l : List String) (s : St) :
    ((run_scripts_go env spath rootfs l s).1).outputs = s.outputs := by
  induction l generalizing s with
  | nil => rfl
  | cons nm rest ih =>
    unfold run_scripts_go
    exact (andThen_outputs _ _ (fun s1 => ih s1)).trans (podmanUnchecked_outputs _ _ _ _)

theorem r_run_scripts_outputs (env : Env) (dir : Option (List String))
    (spath rootfs : String) (s : St) :
    ((run_scripts env dir spath rootfs s).1).outputs = s.outputs := by
  cases dir with
  | none => rfl
  | some names => exact r_run_scripts_go_outputs env spath rootfs (sortedShScripts names) s

theorem r_configure_system_outputs (env : Env) (p : Profile) (rootfs : String) (s : St) :
    ((configure_system env p rootfs s).1).outputs = s.outputs := by
  unfold configure_system
  refine (andThen_outputs _ _ ?_).trans ?_
  · intro s1
    refine withOk_outputs _ _ _ ?_
    intro bc
    refine (andThen_outputs _ _ ?_).trans (podmanUnchecked_outputs _ _ _ _)
    intro s2
    split <;> rfl
  · split
    · exact podmanUnchecked_outputs _ _ _ _
    · rfl
    · rfl

theorem r_build_iso_outputs_error (env : Env) (p : Profile) (rootfs bdir : String)
    (s s1 : St) (e : BuildError)
    (h : build_iso env p rootfs bdir s = (s1, .error e)) :
    s1.outputs = s.outputs := by
  unfold build_iso at h
  exact podmanWriteUnchecked_outputs_error _ _ _ _ _ _ _ h

end Root

namespace CLI

theorem c_setup_podman_container_outputs (env : Env) (p : Profile) (s : St) :
    ((setup_podman_container env p s).1).outputs = s.outputs := by
  unfold setup_podman_container
  refine (andThen_outputs _ _ ?_).trans (podmanChecked_outputs _ _ _ _ _)
  intro s1
  refine withOk_outputs _ _ _ ?_
  intro img
  refine (andThen_outputs _ _ ?_).trans (podmanChecked_outputs _ _ _ _ _)
  intro s2
  exact podmanChecked_outputs _ _ _ _ _

theorem c_install_base_system_outputs (env : Env) (p : Profile) (rootfs : String) (s : St) :
    ((install_base_system env p rootfs s).1).outputs = s.outputs := by
  unfold install_base_system
  refine withOk_outputs _ _ _ ?_
  intro img
  refine withOk_outputs _ _ _ ?_
  intro bc
  exact podmanChecked_outputs _ _ _ _ _

theorem c_install_packages_outputs (env : Env) (p : Profile) (rootfs : String) (s : St) :
    ((install_packages env p rootfs s).1).outputs = s.outputs := by
  unfold install_packages
  split
  · refine withOk_outputs _ _ _ ?_
    intro img
    exact podmanChecked_outputs _ _ _ _ _
  · rfl

theorem c_remove_packages_outputs (env : Env) (p : Profile) (rootfs : String) (s : St) :
    ((remove_packages env p rootfs s).1).outputs = s.outputs := by
  unfold remove_packages
  split
  · refine withOk_outputs _ _ _ ?_
    intro img
    exact podmanChecked_outputs _ _ _ _ _
  · rfl

theorem c_run_scripts_go_outputs (env : Env) (spath rootfs : String) (l : List String) (s : St) :
    ((run_scripts_go env spath rootfs l s).1).outputs = s.outputs := by
  induction l generalizing s with
  | nil => rfl
  | cons nm rest ih =>
    unfold run_scripts_go
    exact (andThen_outputs _ _ (fun s1 => ih s1)).trans (podmanChecked_outputs _ _ _ _ _)

theorem c_run_scripts_outputs (env : Env) (dir : Option (List String))
    (spath rootfs : String) (s : St) :
    ((run_scripts env dir spath rootfs s).1).outputs = s.outputs := by
  cases dir with
  | none => rfl
  | some names => exact c_run_scripts_go_outputs env spath rootfs (sortedShScripts names) s

theorem c_configure_system_outputs (env : Env) (p : Profile) (rootfs : String) (s : St) :
    ((configure_system env p rootfs s).1).outputs = s.outputs := by
  unfold configure_system
  refine withOk_outputs _ _ _ ?_
  intro img
  refine withOk_outputs _ _ _ ?_
  intro init_cmd
  refine (andThen_outputs _ _ ?_).trans (podmanUnchecked_outputs _ _ _ _)
  intro s1
  refine withOk_outputs _ _ _ ?_
  intro bl
  refine (andThen_outputs _ _ ?_).trans (podmanChecked_outputs _ _ _ _ _)
  intro s2
  split
  · rfl
  · exact podmanUnchecked_outputs _ _ _ _

theorem c_build_iso_outputs_error (env : Env) (p : Profile) (rootfs bdir : String)
    (s s1 : St) (e : BuildError)
    (h : build_iso env p rootfs bdir s = (s1, .error e)) :
    s1.outputs = s.outputs := by
  unfold build_iso at h
  revert h
  refine withOk_cases _ _ _
    (fun res => res = (s1, .error e) → s1.outputs = s.outputs) ?_ ?_
  · intro e2 _ hres
    injection hres with ha hb
    rw [← ha]
  · intro img _
    refine andThen_cases _ _
      (fun res => res = (s1, .error e) → s1.outputs = s.outputs) ?_ ?_
    · intro s2 e2 hstep hres
      injection hres with ha hb
      rw [← ha]
      exact podmanWriteChecked_outputs_error _ _ _ _ _ _ _ _ hstep
    · intro s2 hstep hres
      injection hres with ha hb
      exact absurd hb (by simp)

end CLI

theorem andThen_id (step : St × Except BuildError Unit) :
    andThen step (fun s1 => (s1, .ok ())) = step := by
  rcases step with ⟨s1, r⟩
  cases r with
  | ok u => cases u; rfl
  | error e => rfl

theorem root_build_distro_eq_runSeq (env : Env) (p : Profile)
    (filesDir : Option (List FsEntry)) (scriptsDir : Option (List String))
    (fpath spath bdir : String) (s : St) :
    Root.build_distro env p filesDir scriptsDir fpath spath bdir s =
      runSeq (Root.stage_list env p filesDir scriptsDir fpath spath bdir) s := by
  simp only [Root.build_distro, Root.stage_list, runSeq, andThen_id]

theorem cli_build_distro_eq_runSeq (env : Env) (p : Profile)
    (filesDir : Option (List FsEntry)) (scriptsDir : Option (List String))
    (fpath spath bdir : String) (s : St) :
    CLI.build_distro env p filesDir scriptsDir fpath spath bdir s =
      runSeq (CLI.stage_list env p filesDir scriptsDir fpath spath bdir) s := by
  simp only [CLI.build_distro, CLI.stage_list, runSeq, andThen_id]

theorem CLI.run_scripts_go_all_ok (env : Env) (spath rootfs : String) (l : List String) :
    ∀ s : St, (∀ k, k < l.length → env (s.n + k) = some 0) →
    CLI.run_scripts_go env spath rootfs l s =
      (⟨s.n + l.length, s.trace ++ scriptEventsOk spath rootfs l, s.outputs⟩, .ok ()) := by
  induction l with
  | nil =>
    intro s h
    simp only [CLI.run_scripts_go, scriptEventsOk, List.length_nil, Nat.add_zero,
      List.append_nil]
  | cons nm rest ih =>
    intro s h
    have h0 : env s.n = some 0 := by
      have := h 0 (by simp)
      simpa using this
    have hstep : podmanChecked env ("Failed to run script: " ++ pathJoin spath nm)
        "Script execution failed" (scriptArgs spath rootfs nm) s =
        ((⟨s.n + 1, s.trace ++ [.podman (scriptArgs spath rootfs nm) (some 0)],
          s.outputs⟩ : St), .ok ()) := by
      simp [podmanChecked, h0]
    unfold run_scripts_go
    rw [hstep]
    simp only [andThen]
    rw [ih _ (fun k hk => by
      have := h (k + 1) (by simpa using Nat.succ_lt_succ hk)
      simpa [Nat.add_assoc, Nat.add_comm 1 k] using this)]
    simp only [scriptEventsOk, List.length_cons]
    congr 1
    congr 1
    · omega
    · simp

theorem CLI.run_scripts_go_abort (env : Env) (spath rootfs : String) (l : List String) :
    ∀ s : St, ∀ i c : Nat, ∀ hi : i < l.length,
    (∀ j, j < i → env (s.n + j) = some 0) →
    env (s.n + i) = some c → c ≠ 0 →
    CLI.run_scripts_go env spath rootfs l s =
      (⟨s.n + i + 1,
        s.trace ++ scriptEventsOk spath rootfs (l.take i) ++
          [.podman (scriptArgs spath rootfs (l.get ⟨i, hi⟩)) (some c)],
        s.outputs⟩, .error (.failure "Script execution failed")) := by
  induction l with
  | nil =>
    intro s i c hi
    exact absurd hi (by simp)
  | cons nm rest ih =>
    intro s i c hi hok hc hc0
    cases i with
    | zero =>
      have h0 : env s.n = some c := by simpa using hc
      have hstep : podmanChecked env ("Failed to run script: " ++ pathJoin spath nm)
          "Script execution failed" (scriptArgs spath rootfs nm) s =
          ((⟨s.n + 1, s.trace ++ [.podman (scriptArgs spath rootfs nm) (some c)],
            s.outputs⟩ : St), .error (.failure "Script execution failed")) := by
        simp [podmanChecked, h0, hc0]
      unfold run_scripts_go
      rw [hstep]
      simp [andThen, scriptEventsOk]
    | succ i =>
      have h0 : env s.n = some 0 := by
        have := hok 0 (Nat.succ_pos i)
        simpa using this
      have hstep : podmanChecked env ("Failed to run script: " ++ pathJoin spath nm)
          "Script execution failed" (scriptArgs spath rootfs nm) s =
          ((⟨s.n + 1, s.trace ++ [.podman (scriptArgs spath rootfs nm) (some 0)],
            s.outputs⟩ : St), .ok ()) := by
        simp [podmanChecked, h0]
      unfold run_scripts_go
      rw [hstep]
      simp only [andThen]
      rw [ih _ i c (by simpa using Nat.lt_of_succ_lt_succ hi)
        (fun j hj => by
          have := hok (j + 1) (Nat.succ_lt_succ hj)
          simpa [Nat.add_assoc, Nat.add_comm 1 j] using this)
        (by
          have := hc
          simpa [Nat.add_assoc, Nat.add_comm 1 i] using this)
        hc0]
      simp only [List.take_succ_cons, scriptEventsOk, List.get_cons_succ]
      congr 1
      congr 1
      · omega
      · simp

theorem Root.run_scripts_go_all_spawned (env : Env) (spath rootfs : String) (l : List String) :
    ∀ s : St, (∀ k, k < l.length → (env (s.n + k)).isSome = true) →
    Root.run_scripts_go env spath rootfs l s =
      (⟨s.n + l.length, s.trace ++ scriptEventsEnv env spath rootfs s.n l, s.outputs⟩,
       .ok ()) := by
  induction l with
  | nil =>
    intro s h
    simp only [Root.run_scripts_go, scriptEventsEnv, List.length_nil, Nat.add_zero,
      List.append_nil]
  | cons nm rest ih =>
    intro s h
    have h0 : (env s.n).isSome = true := by
      have := h 0 (by simp)
      simpa using this
    obtain ⟨c, hc⟩ := Option.isSome_iff_exists.mp h0
    have hstep : podmanUnchecked env ("Failed to run script: " ++ pathJoin spath nm)
        (scriptArgs spath rootfs nm) s =
        ((⟨s.n + 1, s.trace ++ [.podman (scriptArgs spath rootfs nm) (some c)],
          s.outputs⟩ : St), .ok ()) := by
      simp [podmanUnchecked, hc]
    unfold run_scripts_go
    rw [hstep]
    simp only [andThen]
    rw [ih _ (fun k hk => by
      have := h (k + 1) (by simpa using Nat.succ_lt_succ hk)
      simpa [Nat.add_assoc, Nat.add_comm 1 k] using this)]
    simp only [scriptEventsEnv, hc, List.length_cons]
    congr 1
    congr 1
    · omega
    · simp [Nat.add_comm]

theorem cli_configure_system_no_firmware_ne_ok (env : Env) (p : Profile) (rootfs : String)
    (s : St) (hu : p.uefi_support = false) (hb : p.bios_support = false) :
    (CLI.configure_system env p rootfs s).2 ≠ .ok () := by
  unfold CLI.configure_system
  refine withOk_cases _ _ _ (fun res => res.2 ≠ .ok ()) ?_ ?_
  · intro e _; simp
  · intro img _
    refine withOk_cases _ _ _ (fun res => res.2 ≠ .ok ()) ?_ ?_
    · intro e _; simp
    · intro init_cmd _
      refine andThen_cases _ _ (fun res => res.2 ≠ .ok ()) ?_ ?_
      · intro s1 e _; simp
      · intro s1 _
        refine withOk_cases _ _ _ (fun res => res.2 ≠ .ok ()) ?_ ?_
        · intro e _; simp
        · intro bl _
          refine andThen_cases _ _ (fun res => res.2 ≠ .ok ()) ?_ ?_
          · intro s2 e _; simp
          · intro s2 _
            rw [hu, hb]
            simp

theorem root_configure_system_no_firmware_ne_ok (env : Env) (p : Profile) (rootfs : String)
    (s : St) (hu : p.uefi_support = false) (hb : p.bios_support = false) :
    (Root.configure_system env p rootfs s).2 ≠ .ok () := by
  unfold Root.configure_system
  refine andThen_cases _ _ (fun res => res.2 ≠ .ok ()) ?_ ?_
  · intro s1 e _; simp
  · intro s1 _
    refine withOk_cases _ _ _ (fun res => res.2 ≠ .ok ()) ?_ ?_
    · intro e _; simp
    · intro bl _
      refine andThen_cases _ _ (fun res => res.2 ≠ .ok ()) ?_ ?_
      · intro s2 e _; simp
      · intro s2 _
        rw [hu, hb]
        simp

/-- C1 (counterexample).  The claim says a profile with
`uefi_support = false, bios_support = false` is rejected before any podman
invocation, with no container command run.  On the concrete profile
`pNoFirmware` (ubuntu/systemd/grub, both firmware flags false) under an
all-success environment, the CLI pipeline does fail with the firmware
validation error — but only after 6 podman invocations have been recorded,
so container commands are run for such a profile. -/
theorem c1_firmware_counterexample :
    (CLI.build_distro env0 pNoFirmware none none "/f" "/s" "/b" st0).2 =
      .error (.failure "Must support at least UEFI or BIOS") ∧
    numPodman (CLI.build_distro env0 pNoFirmware none none "/f" "/s" "/b" st0).1.trace = 6 ∧
    numPodman (CLI.build_distro env0 pNoFirmware none none "/f" "/s" "/b" st0).1.trace ≠ 0 :=
  ⟨rfl, rfl, by decide⟩

/-- C1 (amended).  A profile with `uefi_support = false` and
`bios_support = false` is always rejected: the System Configuration stage
never returns success for it, in either pipeline variant.  However the check
is performed inside configure_system — after the build-environment
invocations of the earlier stages and of the init and bootloader sub-steps —
not before the first Build Environment invocation (see the counterexample). -/
theorem c1_firmware_check_amended (env : Env) (p : Profile) (rootfs : String) (s : St)
    (hu : p.uefi_support = false) (hb : p.bios_support = false) :
    (CLI.configure_system env p rootfs s).2 ≠ .ok () ∧
    (Root.configure_system env p rootfs s).2 ≠ .ok () :=
  ⟨cli_configure_system_no_firmware_ne_ok env p rootfs s hu hb,
   root_configure_system_no_firmware_ne_ok env p rootfs s hu hb⟩

/-- C1 (witness): the amended theorem applied at the concrete no-firmware
profile. -/
theorem c1_firmware_check_amended_witness :
    (CLI.configure_system env0 pNoFirmware "/tmp/.ulb/rootfs" st0).2 ≠ .ok () ∧
    (Root.configure_system env0 pNoFirmware "/tmp/.ulb/rootfs" st0).2 ≠ .ok () :=
  c1_firmware_check_amended env0 pNoFirmware "/tmp/.ulb/rootfs" st0 rfl rfl

/-- C2 (code_bug evaluation).  `init_system = "openrc"` must cause a distinct
unsupported-combination failure, but the code resolves it to a placeholder:
in the root variant configure_system runs no init command at all and
succeeds (its only event is the bootloader install); in the CLI variant the
placeholder command `rc-update add ...` is executed and even when it exits 1
the stage continues and succeeds, because the init failure is only logged. -/
theorem c2_openrc_placeholder_eval :
    Root.configure_system env0 pOpenrc "/tmp/.ulb/rootfs" st0 =
      (⟨1, [.podman ["run", "--rm", "-v", "/tmp/.ulb/rootfs:/rootfs:z", "ubuntu:latest",
             "chroot", "/rootfs", "bash", "-c",
             "grub-install --target=x86_64-efi --efi-directory=/boot/efi --bootloader-id=GRUB"]
             (some 0)], []⟩, .ok ()) ∧
    (CLI.configure_system envHeadFail pOpenrc "/tmp/.ulb/rootfs" st0).2 = .ok () ∧
    (CLI.configure_system envHeadFail pOpenrc "/tmp/.ulb/rootfs" st0).1.trace.get? 0 =
      some (.podman ["run", "--rm", "-v", "/tmp/.ulb/rootfs:/rootfs:z", "ubuntu:latest",
        "chroot", "/rootfs", "bash", "-c", "rc-update add ..."] (some 1)) :=
  ⟨rfl, rfl, rfl⟩

/-- C3 (counterexample).  The claim says every non-zero exit code is treated
as stage failure.  In the root variant install_packages records the install
command exiting with code 1 yet returns success. -/
theorem c3_exit_code_counterexample :
    (Root.install_packages env1 pUbuntu "/tmp/.ulb/rootfs" st0).2 = .ok () ∧
    (Root.install_packages env1 pUbuntu "/tmp/.ulb/rootfs" st0).1.trace =
      [.podman ["run", "--rm", "-v", "/tmp/.ulb/rootfs:/rootfs:z", "ubuntu:latest",
        "chroot", "/rootfs", "bash", "-c", "apt install -y vim git"] (some 1)] :=
  ⟨rfl, rfl⟩

/-- C3 (amended).  In the CLI variant a non-zero exit code is a stage failure
for package install, package removal, scripts, the base install's ISO
counterpart and the bootloader step — but the init-configuration and
initramfs sub-steps of configure_system only log the failure, and in the
root variant every exit code after the initial `podman --version` check is
ignored: a run in which every subsequent command exits 1 still reports
overall success. -/
theorem c3_exit_code_amended :
    (∀ env : Env, ∀ p : Profile, ∀ rootfs : String, ∀ s : St, ∀ c : Nat,
      env s.n = some c → c ≠ 0 → p.packages.isEmpty = false →
      (p.base = "ubuntu" ∨ p.base = "debian" ∨ p.base = "fedora") →
      (CLI.install_packages env p rootfs s).2 =
        .error (.failure "Package installation failed")) ∧
    (∀ env : Env, ∀ p : Profile, ∀ rootfs : String, ∀ s : St, ∀ c : Nat,
      env s.n = some c → c ≠ 0 → p.packages_to_remove.isEmpty = false →
      (p.base = "ubuntu" ∨ p.base = "debian" ∨ p.base = "fedora") →
      (CLI.remove_packages env p rootfs s).2 =
        .error (.failure "Package removal failed")) ∧
    (∀ env : Env, ∀ p : Profile, ∀ rootfs bdir : String, ∀ s : St, ∀ c : Nat,
      env s.n = some c → c ≠ 0 →
      (p.base = "ubuntu" ∨ p.base = "debian" ∨ p.base = "fedora") →
      (CLI.build_iso env p rootfs bdir s).2 = .error (.failure "ISO build failed")) ∧
    (∀ env : Env, ∀ spath rootfs nm : String, ∀ rest : List String, ∀ s : St, ∀ c : Nat,
      env s.n = some c → c ≠ 0 →
      (CLI.run_scripts_go env spath rootfs (nm :: rest) s).2 =
        .error (.failure "Script execution failed")) ∧
    (∀ env : Env, ∀ p : Profile, ∀ rootfs : String, ∀ s : St,
      p.base = "ubuntu" → p.init_system = "systemd" → p.bootloader = "grub" →
      p.uefi_support = true →
      env s.n = some 1 → env (s.n + 1) = some 0 → env (s.n + 2) = some 1 →
      (CLI.configure_system env p rootfs s).2 = .ok ()) ∧
    ((Root.build_distro envTailFail pUbuntu none (some ["10-a.sh", "02-b.sh", "z.sh"])
        "/f" "/s" "/b" st0).2 = .ok ()) := by
  refine ⟨?_, ?_, ?_, ?_, ?_, rfl⟩
  · intro env p rootfs s c henv hc hpe hbase
    rcases hbase with h | h | h <;>
      simp [CLI.install_packages, hpe, h, CLI.base_image_of, withOk, podmanChecked, henv, hc]
  · intro env p rootfs s c henv hc hpe hbase
    rcases hbase with h | h | h <;>
      simp [CLI.remove_packages, hpe, h, CLI.base_image_of, withOk, podmanChecked, henv, hc]
  · intro env p rootfs bdir s c henv hc hbase
    rcases hbase with h | h | h <;>
      simp [CLI.build_iso, h, CLI.base_image_of, withOk, andThen, podmanWriteChecked,
        henv, hc]
  · intro env spath rootfs nm rest s c henv hc
    simp [CLI.run_scripts_go, andThen, podmanChecked, henv, hc]
  · intro env p rootfs s hb hi hboot hu h0 h1 h2
    simp [CLI.configure_system, hb, hi, hboot, hu, CLI.base_image_of, withOk, andThen,
      podmanUnchecked, podmanChecked, h0, h1, h2]

/-- C3 (witness): the amended theorem applied at concrete inputs — a failing
package install aborts the CLI stage, while a failing init command followed
by a successful bootloader install and a failing initramfs command leaves
CLI configure_system successful. -/
theorem c3_exit_code_amended_witness :
    (CLI.install_packages env1 pUbuntu "/tmp/.ulb/rootfs" st0).2 =
      .error (.failure "Package installation failed") ∧
    (CLI.configure_system (fun n => if n = 1 then some 0 else some 1) pUbuntu
      "/tmp/.ulb/rootfs" st0).2 = .ok () :=
  ⟨c3_exit_code_amended.1 env1 pUbuntu "/tmp/.ulb/rootfs" st0 1 rfl (by decide) rfl
     (Or.inl rfl),
   c3_exit_code_amended.2.2.2.2.1 (fun n => if n = 1 then some 0 else some 1) pUbuntu
     "/tmp/.ulb/rootfs" st0 rfl rfl rfl rfl rfl rfl rfl⟩

theorem cli_stage_list_front_outputs (env : Env) (p : Profile)
    (filesDir : Option (List FsEntry)) (scriptsDir : Option (List String))
    (fpath spath bdir : String) :
    ∀ f ∈ (CLI.stage_list env p filesDir scriptsDir fpath spath bdir).dropLast,
      ∀ s : St, ((f s).1).outputs = s.outputs := by
  intro f hf s
  simp only [CLI.stage_list, List.dropLast, List.mem_cons, List.not_mem_nil, or_false]
    at hf
  rcases hf with rfl | rfl | rfl | rfl | rfl | rfl | rfl
  · exact CLI.c_setup_podman_container_outputs env p s
  · exact CLI.c_install_base_system_outputs env p _ s
  · exact CLI.c_install_packages_outputs env p _ s
  · exact CLI.c_remove_packages_outputs env p _ s
  · exact copy_files_outputs filesDir fpath _ s
  · exact CLI.c_run_scripts_outputs env scriptsDir spath _ s
  · exact CLI.c_configure_system_outputs env p _ s

theorem cli_stage_list_error_outputs (env : Env) (p : Profile)
    (filesDir : Option (List FsEntry)) (scriptsDir : Option (List String))
    (fpath spath bdir : String) :
    ∀ f ∈ CLI.stage_list env p filesDir scriptsDir fpath spath bdir,
      ∀ s s1 : St, ∀ e : BuildError, f s = (s1, .error e) → s1.outputs = s.outputs := by
  intro f hf s s1 e hfe
  have of_total : ∀ g : St → St × Except BuildError Unit,
      (∀ s' : St, ((g s').1).outputs = s'.outputs) →
      g s = (s1, .error e) → s1.outputs = s.outputs := by
    intro g hg hge
    have := hg s
    rw [hge] at this
    exact this
  simp only [CLI.stage_list, List.mem_cons, List.not_mem_nil, or_false] at hf
  rcases hf with rfl | rfl | rfl | rfl | rfl | rfl | rfl | rfl
  · exact of_total _ (CLI.c_setup_podman_container_outputs env p) hfe
  · exact of_total _ (CLI.c_install_base_system_outputs env p _) hfe
  · exact of_total _ (CLI.c_install_packages_outputs env p _) hfe
  · exact of_total _ (CLI.c_remove_packages_outputs env p _) hfe
  · exact of_total _ (copy_files_outputs filesDir fpath _) hfe
  · exact of_total _ (CLI.c_run_scripts_outputs env scriptsDir spath _) hfe
  · exact of_total _ (CLI.c_configure_system_outputs env p _) hfe
  · exact CLI.c_build_iso_outputs_error env p _ bdir s s1 e hfe

theorem root_stage_list_front_outputs (env : Env) (p : Profile)
    (filesDir : Option (List FsEntry)) (scriptsDir : Option (List String))
    (fpath spath bdir : String) :
    ∀ f ∈ (Root.stage_list env p filesDir scriptsDir fpath spath bdir).dropLast,
      ∀ s : St, ((f s).1).outputs = s.outputs := by
  intro f hf s
  simp only [Root.stage_list, List.dropLast, List.mem_cons, List.not_mem_nil, or_false]
    at hf
  rcases hf with rfl | rfl | rfl | rfl | rfl | rfl | rfl
  · exact Root.r_setup_podman_container_outputs env p s
  · exact Root.r_install_base_system_outputs env p _ s
  · exact Root.r_install_packages_outputs env p _ s
  · exact Root.r_remove_packages_outputs env p _ s
  · exact copy_files_outputs filesDir fpath _ s
  · exact Root.r_run_scripts_outputs env scriptsDir spath _ s
  · exact Root.r_configure_system_outputs env p _ s

theorem root_stage_list_error_outputs (env : Env) (p : Profile)
    (filesDir : Option (List FsEntry)) (scriptsDir : Option (List String))
    (fpath spath bdir : String) :
    ∀ f ∈ Root.stage_list env p filesDir scriptsDir fpath spath bdir,
      ∀ s s1 : St, ∀ e : BuildError, f s = (s1, .error e) → s1.outputs = s.outputs := by
  intro f hf s s1 e hfe
  have of_total : ∀ g : St → St × Except BuildError Unit,
      (∀ s' : St, ((g s').1).outputs = s'.outputs) →
      g s = (s1, .error e) → s1.outputs = s.outputs := by
    intro g hg hge
    have := hg s
    rw [hge] at this
    exact this
  simp only [Root.stage_list, List.mem_cons, List.not_mem_nil, or_false] at hf
  rcases hf with rfl | rfl | rfl | rfl | rfl | rfl | rfl | rfl
  · exact of_total _ (Root.r_setup_podman_container_outputs env p) hfe
  · exact of_total _ (Root.r_install_base_system_outputs env p _) hfe
  · exact of_total _ (Root.r_install_packages_outputs env p _) hfe
  · exact of_total _ (Root.r_remove_packages_outputs env p _) hfe
  · exact of_total _ (copy_files_outputs filesDir fpath _) hfe
  · exact of_total _ (Root.r_run_scripts_outputs env scriptsDir spath _) hfe
  · exact of_total _ (Root.r_configure_system_outputs env p _) hfe
  · exact Root.r_build_iso_outputs_error env p _ bdir s s1 e hfe

/-- C4.  Fail-fast and no artifact on failure, for both pipeline variants:
whenever build_distro ends in an error, (a) the expected ISO path
`<bdir>/<distroName>-<version>.iso` is not among the produced outputs
(provided the run started without it), and (b) there is a stage index
`k < 8` such that the first `k` stages succeeded and the whole run equals
the run of only the first `k+1` stages — i.e. stages `k+2..8` were never
invoked and contributed nothing. -/
theorem c4_fail_fast_no_artifact (env : Env) (p : Profile)
    (filesDir : Option (List FsEntry)) (scriptsDir : Option (List String))
    (fpath spath bdir : String) (s0 s1 : St) (e : BuildError)
    (hfresh : pathJoin bdir (p.distro_name ++ "-" ++ p.version ++ ".iso") ∉ s0.outputs) :
    (CLI.build_distro env p filesDir scriptsDir fpath spath bdir s0 = (s1, .error e) →
      pathJoin bdir (p.distro_name ++ "-" ++ p.version ++ ".iso") ∉ s1.outputs ∧
      ∃ k, k < 8 ∧
        (runSeq ((CLI.stage_list env p filesDir scriptsDir fpath spath bdir).take k) s0).2 =
          .ok () ∧
        runSeq ((CLI.stage_list env p filesDir scriptsDir fpath spath bdir).take (k + 1)) s0 =
          (s1, .error e)) ∧
    (Root.build_distro env p filesDir scriptsDir fpath spath bdir s0 = (s1, .error e) →
      pathJoin bdir (p.distro_name ++ "-" ++ p.version ++ ".iso") ∉ s1.outputs ∧
      ∃ k, k < 8 ∧
        (runSeq ((Root.stage_list env p filesDir scriptsDir fpath spath bdir).take k) s0).2 =
          .ok () ∧
        runSeq ((Root.stage_list env p filesDir scriptsDir fpath spath bdir).take (k + 1)) s0 =
          (s1, .error e)) := by
  constructor
  · intro h
    rw [cli_build_distro_eq_runSeq] at h
    have hout : s1.outputs = s0.outputs :=
      runSeq_outputs_error _
        (cli_stage_list_front_outputs env p filesDir scriptsDir fpath spath bdir)
        (cli_stage_list_error_outputs env p filesDir scriptsDir fpath spath bdir)
        s0 s1 e h
    refine ⟨by rw [hout]; exact hfresh, ?_⟩
    obtain ⟨k, hk, hok, herr⟩ := runSeq_error_split _ s0 s1 e h
    exact ⟨k, by simpa [CLI.stage_list] using hk, hok, herr⟩
  · intro h
    rw [root_build_distro_eq_runSeq] at h
    have hout : s1.outputs = s0.outputs :=
      runSeq_outputs_error _
        (root_stage_list_front_outputs env p filesDir scriptsDir fpath spath bdir)
        (root_stage_list_error_outputs env p filesDir scriptsDir fpath spath bdir)
        s0 s1 e h
    refine ⟨by rw [hout]; exact hfresh, ?_⟩
    obtain ⟨k, hk, hok, herr⟩ := runSeq_error_split _ s0 s1 e h
    exact ⟨k, by simpa [Root.stage_list] using hk, hok, herr⟩

/-- C4 (witness): the theorem applied to the concrete profile with an
unsupported bootloader, which fails in stage 7 (System Configuration) under
an all-success environment. -/
theorem c4_fail_fast_no_artifact_witness :
    pathJoin "/b" (pBadBootloader.distro_name ++ "-" ++ pBadBootloader.version ++ ".iso") ∉
      (CLI.build_distro env0 pBadBootloader none none "/f" "/s" "/b" st0).1.outputs ∧
    ∃ k, k < 8 ∧
      (runSeq ((CLI.stage_list env0 pBadBootloader none none "/f" "/s" "/b").take k) st0).2 =
        .ok () ∧
      runSeq ((CLI.stage_list env0 pBadBootloader none none "/f" "/s" "/b").take (k + 1)) st0 =
        ((CLI.build_distro env0 pBadBootloader none none "/f" "/s" "/b" st0).1,
         .error (.failure "Unsupported bootloader: lilo")) :=
  (c4_fail_fast_no_artifact env0 pBadBootloader none none "/f" "/s" "/b" st0
    (CLI.build_distro env0 pBadBootloader none none "/f" "/s" "/b" st0).1
    (.failure "Unsupported bootloader: lilo") (by decide)).1 rfl

/-- C5 (counterexample).  The claim says the pipeline never proceeds to build
with `atomic = true` on a non-fedora base without rejecting the profile or
downgrading it with a warning.  On the concrete file-loaded profile with
`base = "ubuntu", atomic = true` the CLI pipeline performs no check at all:
the run succeeds and its Image Assembly invocation (trace index 7) uses the
atomic compose command. -/
theorem c5_atomic_counterexample :
    pUbuntuAtomic.atomic = true ∧
    pUbuntuAtomic.base = "ubuntu" ∧
    (CLI.build_distro env0 pUbuntuAtomic none none "/f" "/s" "/b" st0).2 = .ok () ∧
    (CLI.build_distro env0 pUbuntuAtomic none none "/f" "/s" "/b" st0).1.trace.get? 7 =
      some (.podman
        ["run", "--rm", "--privileged", "-v", "/tmp/.ulb/rootfs:/rootfs:z", "-v",
         "/tmp/.ulb/output.iso:/output.iso:z", "ubuntu:latest", "bash", "-c",
         "rpm-ostree compose tree --repo=/rootfs/ostree-repo /rootfs/tree.yaml && mksquashfs /rootfs /filesystem.squashfs -comp xz && xorriso -as mkisofs -o /output.iso -V \x27MyDistro\x27 -e /filesystem.squashfs -no-emul-boot /rootfs"]
        (some 0)) :=
  ⟨rfl, rfl, rfl, rfl⟩

/-- C5 (amended).  Only the CLI interactive path enforces the invariant: its
validation block downgrades `atomic = true` on a non-fedora base to
`atomic = false` with a warning.  The root interactive path leaves the
profile unchanged, and the file-loaded build path performs no such check in
either variant: the root pipeline likewise builds an ubuntu profile with
`atomic = true` successfully, using the atomic assembly command. -/
theorem c5_atomic_amended :
    (∀ p : Profile, (p.base = "ubuntu" ∨ p.base = "debian") → p.atomic = true →
      CLI.interactive_profile_check p = .ok ({ p with atomic := false }, true)) ∧
    (∀ p : Profile, (Root.interactive_profile_check p).1 = p) ∧
    ((Root.build_distro env0 pUbuntuAtomic none none "/f" "/s" "/b" st0).2 = .ok ()) ∧
    ((Root.build_distro env0 pUbuntuAtomic none none "/f" "/s" "/b" st0).1.trace.get? 6 =
      some (.podman
        ["run", "--rm", "-v", "/tmp/.ulb/rootfs:/rootfs:z", "-v",
         "/b/MyDistro-1.0.iso:/output.iso:z", "ubuntu:latest", "bash", "-c",
         "rpm-ostree compose tree --repo=/rootfs/ostree-repo /rootfs/tree.yaml && xorriso -as mkisofs -o /output.iso /rootfs"]
        (some 0))) := by
  refine ⟨?_, fun p => rfl, rfl, rfl⟩
  intro p hb ha
  rcases hb with h | h <;> simp [CLI.interactive_profile_check, h, ha]

/-- C5 (witness): the amended theorem's downgrade clause applied at the
concrete ubuntu profile with `atomic = true`. -/
theorem c5_atomic_amended_witness :
    CLI.interactive_profile_check pUbuntuAtomic =
      .ok ({ pUbuntuAtomic with atomic := false }, true) :=
  c5_atomic_amended.1 pUbuntuAtomic (Or.inl rfl) rfl

/-- C6 (counterexample).  The claim says the first failing script aborts the
remaining scripts.  In the root variant, with scripts `b.sh, a.sh` and every
command exiting 1, the first script (`a.sh` in sorted order) fails and the
second is still executed, and the stage reports success. -/
theorem c6_script_abort_counterexample :
    Root.run_scripts env1 (some ["b.sh", "a.sh"]) "/s" "/tmp/.ulb/rootfs" st0 =
      (⟨2, [.podman (scriptArgs "/s" "/tmp/.ulb/rootfs" "a.sh") (some 1),
            .podman (scriptArgs "/s" "/tmp/.ulb/rootfs" "b.sh") (some 1)], []⟩, .ok ()) :=
  rfl

/-- C6 (amended).  Both variants run the `*.sh` entries of the scripts
directory in the file-name order produced by `sortedShScripts`, which is
sorted in byte lexicographic order and is a permutation of the filtered
entries.  In the CLI variant the scripts run in that order until the first
non-zero exit, which aborts the remaining scripts with a failure; in the
root variant all scripts run regardless of their exit codes (only a spawn
failure stops the loop), so a failing script does not abort the rest. -/
theorem c6_script_order_amended :
    (∀ names : List String, List.Sorted nameRel (sortedShScripts names) ∧
      List.Perm (sortedShScripts names) (names.filter isShFile)) ∧
    (∀ env : Env, ∀ spath rootfs : String, ∀ names : List String, ∀ s : St,
      (∀ k, k < (sortedShScripts names).length → env (s.n + k) = some 0) →
      CLI.run_scripts env (some names) spath rootfs s =
        (⟨s.n + (sortedShScripts names).length,
          s.trace ++ scriptEventsOk spath rootfs (sortedShScripts names), s.outputs⟩,
         .ok ())) ∧
    (∀ env : Env, ∀ spath rootfs : String, ∀ names : List String, ∀ s : St,
      ∀ i c : Nat, ∀ hi : i < (sortedShScripts names).length,
      (∀ j, j < i → env (s.n + j) = some 0) → env (s.n + i) = some c → c ≠ 0 →
      CLI.run_scripts env (some names) spath rootfs s =
        (⟨s.n + i + 1,
          s.trace ++ scriptEventsOk spath rootfs ((sortedShScripts names).take i) ++
            [.podman (scriptArgs spath rootfs ((sortedShScripts names).get ⟨i, hi⟩))
              (some c)],
          s.outputs⟩, .error (.failure "Script execution failed"))) ∧
    (∀ env : Env, ∀ spath rootfs : String, ∀ names : List String, ∀ s : St,
      (∀ k, k < (sortedShScripts names).length → (env (s.n + k)).isSome = true) →
      Root.run_scripts env (some names) spath rootfs s =
        (⟨s.n + (sortedShScripts names).length,
          s.trace ++ scriptEventsEnv env spath rootfs s.n (sortedShScripts names),
          s.outputs⟩, .ok ())) := by
  refine ⟨?_, ?_, ?_, ?_⟩
  · intro names
    exact ⟨sortedShScripts_sorted names, sortedShScripts_perm names⟩
  · intro env spath rootfs names s h
    exact CLI.run_scripts_go_all_ok env spath rootfs (sortedShScripts names) s h
  · intro env spath rootfs names s i c hi hok hc hc0
    exact CLI.run_scripts_go_abort env spath rootfs (sortedShScripts names) s i c hi hok hc hc0
  · intro env spath rootfs names s h
    exact Root.run_scripts_go_all_spawned env spath rootfs (sortedShScripts names) s h

/-- C6 (witness): the amended theorem applied to the directory listing
`{10-a.sh, 02-b.sh, z.sh}` under an all-success environment: the scripts
execute exactly in the order `02-b.sh, 10-a.sh, z.sh`. -/
theorem c6_script_order_amended_witness :
    sortedShScripts ["10-a.sh", "02-b.sh", "z.sh"] = ["02-b.sh", "10-a.sh", "z.sh"] ∧
    CLI.run_scripts env0 (some ["10-a.sh", "02-b.sh", "z.sh"]) "/s" "/tmp/.ulb/rootfs" st0 =
      (⟨3, scriptEventsOk "/s" "/tmp/.ulb/rootfs" ["02-b.sh", "10-a.sh", "z.sh"], []⟩,
       .ok ()) :=
  ⟨by decide,
   (c6_script_order_amended.2.1 env0 "/s" "/tmp/.ulb/rootfs" ["10-a.sh", "02-b.sh", "z.sh"]
     st0 (fun k _ => rfl)).trans
     (congrArg (fun st => (st, Except.ok ())) (by decide))⟩

/-- C7 (counterexample).  The claim says each stage uses the container image
mapped from `base`.  But the Script Execution stage hard-codes
`ubuntu:latest` (it is the 7th argument of every script invocation and the
stage never sees the profile), which differs from the image mapped for a
fedora profile; moreover the root variant rejects classic (non-atomic)
fedora in install_base_system instead of resolving a plain package-manager
install. -/
theorem c7_image_counterexample :
    CLI.base_image_of "fedora" = .ok "fedora:latest" ∧
    CLI.run_scripts env0 (some ["a.sh"]) "/s" "/tmp/.ulb/rootfs" st0 =
      (⟨1, [.podman (scriptArgs "/s" "/tmp/.ulb/rootfs" "a.sh") (some 0)], []⟩, .ok ()) ∧
    (scriptArgs "/s" "/tmp/.ulb/rootfs" "a.sh").get? 6 = some "ubuntu:latest" ∧
    ("ubuntu:latest" : String) ≠ "fedora:latest" ∧
    (Root.install_base_system env0 { pUbuntu with base := "fedora" } "/tmp/.ulb/rootfs"
      st0).2 = .error (.failure "Unsupported base: fedora") :=
  ⟨rfl, rfl, rfl, by decide, rfl⟩

/-- C7 (amended).  In the CLI variant: the package manager resolves to apt
(ubuntu/debian) and dnf (fedora) with the image mapped from `base`; the
bootstrap resolves to debootstrap (ubuntu/debian), rpm-ostree (fedora
atomic) and a plain `dnf --installroot` install (fedora classic); but the
Script Execution stage always uses the image `ubuntu:latest` regardless of
`base`.  In the root variant, install_packages on a fedora profile resolves
the dnf command but still runs it in the `ubuntu:latest` container. -/
theorem c7_resolver_amended :
    (∀ env : Env, ∀ p : Profile, ∀ rootfs : String, ∀ s : St,
      (p.base = "ubuntu" ∨ p.base = "debian") → p.packages.isEmpty = false →
      CLI.install_packages env p rootfs s =
        podmanChecked env "Failed to install packages" "Package installation failed"
          ["run", "--rm", "-v", rootfs ++ ":/rootfs:z", "ubuntu:latest", "chroot",
           "/rootfs", "bash", "-c",
           "apt install -y " ++ String.intercalate " " p.packages] s) ∧
    (∀ env : Env, ∀ p : Profile, ∀ rootfs : String, ∀ s : St,
      p.base = "fedora" → p.packages.isEmpty = false →
      CLI.install_packages env p rootfs s =
        podmanChecked env "Failed to install packages" "Package installation failed"
          ["run", "--rm", "-v", rootfs ++ ":/rootfs:z", "fedora:latest", "chroot",
           "/rootfs", "bash", "-c",
           "dnf install -y " ++ String.intercalate " " p.packages] s) ∧
    (∀ env : Env, ∀ p : Profile, ∀ rootfs : String, ∀ s : St,
      (p.base = "ubuntu" ∨ p.base = "debian") →
      CLI.install_base_system env p rootfs s =
        podmanChecked env "Failed to run base install" "Base system installation failed"
          ["run", "--rm", "--privileged", "-v", rootfs ++ ":/rootfs:z", "ubuntu:latest",
           "bash", "-c",
           "debootstrap --arch=amd64 stable /rootfs http://deb.debian.org/debian/"] s) ∧
    (∀ env : Env, ∀ p : Profile, ∀ rootfs : String, ∀ s : St,
      p.base = "fedora" → p.atomic = true →
      CLI.install_base_system env p rootfs s =
        podmanChecked env "Failed to run base install" "Base system installation failed"
          ["run", "--rm", "--privileged", "-v", rootfs ++ ":/rootfs:z", "fedora:latest",
           "bash", "-c",
           "rpm-ostree install --repo=/rootfs/ostree-repo base-packages"] s) ∧
    (∀ env : Env, ∀ p : Profile, ∀ rootfs : String, ∀ s : St,
      p.base = "fedora" → p.atomic = false →
      CLI.install_base_system env p rootfs s =
        podmanChecked env "Failed to run base install" "Base system installation failed"
          ["run", "--rm", "--privileged", "-v", rootfs ++ ":/rootfs:z", "fedora:latest",
           "bash", "-c",
           "dnf install -y --installroot=/rootfs --releasever=latest @core"] s) ∧
    (∀ spath rootfs nm : String, (scriptArgs spath rootfs nm).get? 6 =
      some "ubuntu:latest") ∧
    (∀ env : Env, ∀ p : Profile, ∀ rootfs : String, ∀ s : St,
      p.base = "fedora" → p.packages.isEmpty = false →
      Root.install_packages env p rootfs s =
        podmanUnchecked env "Failed to install packages"
          ["run", "--rm", "-v", rootfs ++ ":/rootfs:z", "ubuntu:latest", "chroot",
           "/rootfs", "bash", "-c",
           "dnf install -y " ++ String.intercalate " " p.packages] s) := by
  refine ⟨?_, ?_, ?_, ?_, ?_, fun spath rootfs nm => rfl, ?_⟩
  · intro env p rootfs s hb hpe
    rcases hb with h | h <;>
      simp [CLI.install_packages, hpe, h, CLI.base_image_of, withOk]
  · intro env p rootfs s hb hpe
    simp [CLI.install_packages, hpe, hb, CLI.base_image_of, withOk]
  · intro env p rootfs s hb
    rcases hb with h | h <;>
      simp [CLI.install_base_system, h, CLI.base_image_of, withOk]
  · intro env p rootfs s hb ha
    simp [CLI.install_base_system, hb, ha, CLI.base_image_of, withOk]
  · intro env p rootfs s hb ha
    simp [CLI.install_base_system, hb, ha, CLI.base_image_of, withOk]
  · intro env p rootfs s hb hpe
    simp [Root.install_packages, hpe, hb]

/-- C7 (witness): the amended theorem applied at concrete fedora profiles. -/
theorem c7_resolver_amended_witness :
    CLI.install_packages env0 { pUbuntu with base := "fedora" } "/tmp/.ulb/rootfs" st0 =
      podmanChecked env0 "Failed to install packages" "Package installation failed"
        ["run", "--rm", "-v", "/tmp/.ulb/rootfs:/rootfs:z", "fedora:latest", "chroot",
         "/rootfs", "bash", "-c", "dnf install -y vim git"] st0 ∧
    CLI.install_base_system env0 { pUbuntu with base := "fedora" } "/tmp/.ulb/rootfs" st0 =
      podmanChecked env0 "Failed to run base install" "Base system installation failed"
        ["run", "--rm", "--privileged", "-v", "/tmp/.ulb/rootfs:/rootfs:z", "fedora:latest",
         "bash", "-c", "dnf install -y --installroot=/rootfs --releasever=latest @core"] st0 :=
  ⟨c7_resolver_amended.2.1 env0 { pUbuntu with base := "fedora" } "/tmp/.ulb/rootfs" st0
     rfl rfl,
   c7_resolver_amended.2.2.2.2.1 env0 { pUbuntu with base := "fedora" } "/tmp/.ulb/rootfs"
     st0 rfl rfl⟩

/-- C8 (counterexample).  The claim says the Image Assembly stage writes the
image at a temporary path and only on success renames it to the durable
location.  The root variant instead bind-mounts the durable path
`/b/MyDistro-1.0.iso` directly into the container, performs no rename at
all, and even reports success when the assembly command exits 1. -/
theorem c8_iso_counterexample :
    Root.build_iso env1 pUbuntu "/tmp/.ulb/rootfs" "/b" st0 =
      (⟨1, [.podman ["run", "--rm", "-v", "/tmp/.ulb/rootfs:/rootfs:z", "-v",
            "/b/MyDistro-1.0.iso:/output.iso:z", "ubuntu:latest", "bash", "-c",
            "mksquashfs /rootfs /filesystem.squashfs && xorriso -as mkisofs -o /output.iso -b isolinux/isolinux.bin -c isolinux/boot.cat -no-emul-boot -boot-load-size 4 -boot-info-table -eltorito-alt-boot -e boot/efi.img -no-emul-boot /rootfs"]
            (some 1)], []⟩, .ok ()) ∧
    ((Root.build_iso env1 pUbuntu "/tmp/.ulb/rootfs" "/b" st0).1.trace.filter
      (fun ev => match ev with | .renamed _ _ => true | _ => false)) = [] :=
  ⟨rfl, rfl⟩

/-- C8 (amended).  In the CLI variant the assembly command writes to the
temporary path /tmp/.ulb/output.iso and the image is renamed to
`<bdir>/<distroName>-<version>.iso` exactly when the status-checked
invocation exits 0; on a non-zero exit or a spawn failure the stage fails,
no rename event is emitted and the outputs are unchanged.  In the root
variant the durable path itself is bind-mounted into the container, there is
no temporary path and no rename, and the stage reports success for every
exit code. -/
theorem c8_iso_rename_amended :
    (∀ env : Env, ∀ p : Profile, ∀ rootfs bdir img : String, ∀ s : St,
      CLI.base_image_of p.base = .ok img → env s.n = some 0 →
      CLI.build_iso env p rootfs bdir s =
        (doRename "/tmp/.ulb/output.iso"
          (pathJoin bdir (p.distro_name ++ "-" ++ p.version ++ ".iso"))
          ⟨s.n + 1,
           s.trace ++ [.podman
             ["run", "--rm", "--privileged", "-v", rootfs ++ ":/rootfs:z", "-v",
              "/tmp/.ulb/output.iso:/output.iso:z", img, "bash", "-c",
              if p.atomic then
                "rpm-ostree compose tree --repo=/rootfs/ostree-repo /rootfs/tree.yaml && mksquashfs /rootfs /filesystem.squashfs -comp xz && xorriso -as mkisofs -o /output.iso -V \x27MyDistro\x27 -e /filesystem.squashfs -no-emul-boot /rootfs"
              else
                "mksquashfs /rootfs /filesystem.squashfs -comp xz && xorriso -as mkisofs -o /output.iso -b isolinux/isolinux.bin -c isolinux/boot.cat -no-emul-boot -boot-load-size 4 -boot-info-table -eltorito-alt-boot -e boot/efi.img -no-emul-boot -V \x27MyDistro\x27 /rootfs"]
             (some 0)],
           s.outputs ++ ["/tmp/.ulb/output.iso"]⟩, .ok ())) ∧
    (∀ env : Env, ∀ p : Profile, ∀ rootfs bdir img : String, ∀ s : St, ∀ c : Nat,
      CLI.base_image_of p.base = .ok img → env s.n = some c → c ≠ 0 →
      (CLI.build_iso env p rootfs bdir s).2 = .error (.failure "ISO build failed") ∧
      (CLI.build_iso env p rootfs bdir s).1.outputs = s.outputs ∧
      ((CLI.build_iso env p rootfs bdir s).1.trace.filter
        (fun ev => match ev with | .renamed _ _ => true | _ => false)) =
        (s.trace.filter (fun ev => match ev with | .renamed _ _ => true | _ => false))) ∧
    (∀ env : Env, ∀ p : Profile, ∀ rootfs bdir img : String, ∀ s : St,
      CLI.base_image_of p.base = .ok img → env s.n = none →
      (CLI.build_iso env p rootfs bdir s).2 = .error (.spawn "Failed to build ISO") ∧
      (CLI.build_iso env p rootfs bdir s).1.outputs = s.outputs) ∧
    (∀ env : Env, ∀ p : Profile, ∀ rootfs bdir : String, ∀ s : St, ∀ c : Nat,
      env s.n = some c →
      Root.build_iso env p rootfs bdir s =
        (⟨s.n + 1,
          s.trace ++ [.podman
            ["run", "--rm", "-v", rootfs ++ ":/rootfs:z", "-v",
             pathJoin bdir (p.distro_name ++ "-" ++ p.version ++ ".iso") ++
               ":/output.iso:z", "ubuntu:latest", "bash", "-c",
             if p.atomic then
               "rpm-ostree compose tree --repo=/rootfs/ostree-repo /rootfs/tree.yaml && xorriso -as mkisofs -o /output.iso /rootfs"
             else
               "mksquashfs /rootfs /filesystem.squashfs && xorriso -as mkisofs -o /output.iso -b isolinux/isolinux.bin -c isolinux/boot.cat -no-emul-boot -boot-load-size 4 -boot-info-table -eltorito-alt-boot -e boot/efi.img -no-emul-boot /rootfs"]
            (some c)],
          if c = 0 then
            s.outputs ++ [pathJoin bdir (p.distro_name ++ "-" ++ p.version ++ ".iso")]
          else s.outputs⟩, .ok ())) := by
  refine ⟨?_, ?_, ?_, ?_⟩
  · intro env p rootfs bdir img s himg h0
    simp [CLI.build_iso, himg, withOk, andThen, podmanWriteChecked, h0]
  · intro env p rootfs bdir img s c himg hc hc0
    simp [CLI.build_iso, himg, withOk, andThen, podmanWriteChecked, hc, hc0]
  · intro env p rootfs bdir img s himg hn
    simp [CLI.build_iso, himg, withOk, andThen, podmanWriteChecked, hn]
  · intro env p rootfs bdir s c hc
    simp [Root.build_iso, podmanWriteUnchecked, hc]

/-- C8 (witness): the amended theorem's success clause at the concrete
ubuntu profile — the image is assembled at the temporary path and renamed to
/b/MyDistro-1.0.iso. -/
theorem c8_iso_rename_amended_witness :
    CLI.build_iso env0 pUbuntu "/tmp/.ulb/rootfs" "/b" st0 =
      (doRename "/tmp/.ulb/output.iso"
        (pathJoin "/b" (pUbuntu.distro_name ++ "-" ++ pUbuntu.version ++ ".iso"))
        ⟨1,
         [.podman
           ["run", "--rm", "--privileged", "-v", "/tmp/.ulb/rootfs:/rootfs:z", "-v",
            "/tmp/.ulb/output.iso:/output.iso:z", "ubuntu:latest", "bash", "-c",
            if pUbuntu.atomic then
              "rpm-ostree compose tree --repo=/rootfs/ostree-repo /rootfs/tree.yaml && mksquashfs /rootfs /filesystem.squashfs -comp xz && xorriso -as mkisofs -o /output.iso -V \x27MyDistro\x27 -e /filesystem.squashfs -no-emul-boot /rootfs"
            else
              "mksquashfs /rootfs /filesystem.squashfs -comp xz && xorriso -as mkisofs -o /output.iso -b isolinux/isolinux.bin -c isolinux/boot.cat -no-emul-boot -boot-load-size 4 -boot-info-table -eltorito-alt-boot -e boot/efi.img -no-emul-boot -V \x27MyDistro\x27 /rootfs"]
           (some 0)],
         ["/tmp/.ulb/output.iso"]⟩, .ok ()) :=
  c8_iso_rename_amended.1 env0 pUbuntu "/tmp/.ulb/rootfs" "/b" "ubuntu:latest" st0 rfl rfl

/-- C9.  No-op preconditions, in both variants: an empty `packages` list
produces zero package-manager invocations (the stage returns with the state
untouched), an empty `packages_to_remove` list produces zero removal
invocations, and a missing scripts or files directory makes the
corresponding stage a successful no-op. -/
theorem c9_noop_preconditions :
    (∀ env : Env, ∀ p : Profile, ∀ rootfs : String, ∀ s : St, p.packages = [] →
      CLI.install_packages env p rootfs s = (s, .ok ())) ∧
    (∀ env : Env, ∀ p : Profile, ∀ rootfs : String, ∀ s : St, p.packages = [] →
      Root.install_packages env p rootfs s = (s, .ok ())) ∧
    (∀ env : Env, ∀ p : Profile, ∀ rootfs : String, ∀ s : St, p.packages_to_remove = [] →
      CLI.remove_packages env p rootfs s = (s, .ok ())) ∧
    (∀ env : Env, ∀ p : Profile, ∀ rootfs : String, ∀ s : St, p.packages_to_remove = [] →
      Root.remove_packages env p rootfs s = (s, .ok ())) ∧
    (∀ env : Env, ∀ spath rootfs : String, ∀ s : St,
      CLI.run_scripts env none spath rootfs s = (s, .ok ())) ∧
    (∀ env : Env, ∀ spath rootfs : String, ∀ s : St,
      Root.run_scripts env none spath rootfs s = (s, .ok ())) ∧
    (∀ fpath dpath : String, ∀ s : St, copy_files none fpath dpath s = (s, .ok ())) := by
  refine ⟨?_, ?_, ?_, ?_, fun env spath rootfs s => rfl, fun env spath rootfs s => rfl,
    fun fpath dpath s => rfl⟩
  · intro env p rootfs s h
    simp [CLI.install_packages, h]
  · intro env p rootfs s h
    simp [Root.install_packages, h]
  · intro env p rootfs s h
    simp [CLI.remove_packages, h]
  · intro env p rootfs s h
    simp [Root.remove_packages, h]

/-- C9 (witness): the no-op clauses applied at a concrete profile with empty
package lists and missing directories. -/
theorem c9_noop_preconditions_witness :
    CLI.install_packages env0 pNoFirmware "/tmp/.ulb/rootfs" st0 = (st0, .ok ()) ∧
    CLI.remove_packages env0 pNoFirmware "/tmp/.ulb/rootfs" st0 = (st0, .ok ()) ∧
    CLI.run_scripts env0 none "/s" "/tmp/.ulb/rootfs" st0 = (st0, .ok ()) ∧
    copy_files none "/f" "/tmp/.ulb/rootfs" st0 = (st0, .ok ()) :=
  ⟨c9_noop_preconditions.1 env0 pNoFirmware "/tmp/.ulb/rootfs" st0 rfl,
   c9_noop_preconditions.2.2.1 env0 pNoFirmware "/tmp/.ulb/rootfs" st0 rfl,
   c9_noop_preconditions.2.2.2.2.1 env0 "/s" "/tmp/.ulb/rootfs" st0,
   c9_noop_preconditions.2.2.2.2.2.2 "/f" "/tmp/.ulb/rootfs" st0⟩

/-- C10.  The `format` field is parsed into the Profile but never read by any
stage: two profiles differing only in `format` produce byte-identical runs
(same invocation trace, same result, same outputs) in both pipeline
variants; in particular a profile with a format other than "iso" is neither
rejected nor treated differently. -/
theorem c10_format_unused (env : Env) (p : Profile) (filesDir : Option (List FsEntry))
    (scriptsDir : Option (List String)) (fpath spath bdir : String) (s : St)
    (fmt : String) :
    CLI.build_distro env { p with format := fmt } filesDir scriptsDir fpath spath bdir s =
      CLI.build_distro env p filesDir scriptsDir fpath spath bdir s ∧
    Root.build_distro env { p with format := fmt } filesDir scriptsDir fpath spath bdir s =
      Root.build_distro env p filesDir scriptsDir fpath spath bdir s ∧
    CLI.interactive_profile_check { p with format := fmt } =
      (CLI.interactive_profile_check p).map
        (fun q => ({ q.1 with format := fmt }, q.2)) := by
  cases p
  refine ⟨rfl, rfl, ?_⟩
  unfold CLI.interactive_profile_check
  split
  · rfl
  · split
    · rfl
    · rfl
